import Mathlib

/-!
Verification of the banking fraud-detection service.

This file shallowly embeds the per-transaction analysis pipeline of the
service: the six rule-based analyzers, the rule-based ML fallback model,
the aggregation and threshold decision, the outbound-event publication,
the idempotent orchestrator, and the Kafka consumer's ingress validation.

Modelling conventions:
* JavaScript numbers are embedded as `ℚ` (all constants in the code are
  short decimals, and every arithmetic operation used on the paths under
  study is exact on them).
* Timestamps are carried as integer epoch milliseconds; the hour / day /
  month / day-of-month projections of a `Date` are carried as separate
  fields of the embedded records, since they are computed by the runtime.
* External collaborators (Redis cache, Sequelize models, UAParser) are
  embedded as explicit environment records holding the values their calls
  return; fail-open cache reads are `Option`-valued.
* Stateful steps of the orchestrator (`processTransaction`) are embedded
  as a function from an explicit system state (idempotency markers,
  velocity counters, persisted analyses, published events) to a new state.
-/

namespace FraudSpec

/-- Risk decision made by the fraud detection system (src/types). -/
inductive RiskDecision
  | APPROVE
  | SUSPICIOUS
  | REJECT
deriving DecidableEq, Repr

/-- Confidence level of the analysis (src/types). -/
inductive ConfidenceLevel
  | HIGH
  | MEDIUM
  | LOW
deriving DecidableEq, Repr

/-- Status of a fraud analysis (src/types). -/
inductive AnalysisStatus
  | PENDING
  | COMPLETED
  | FAILED
  | TIMEOUT
deriving DecidableEq, Repr

/-- Fraud detection method tag (src/types). -/
inductive Method
  | VELOCITY
  | GEOGRAPHIC
  | AMOUNT
  | RECIPIENT
  | TIME
  | DEVICE
  | ML_MODEL
deriving DecidableEq, Repr

/-- The slice of a velocity factor's `details` map read back by
`FraudDetectionService.constructMLFeatures`.  Other analyzers never have
their `details` consulted, so the opaque map is embedded as this optional
record (`none` for every non-velocity factor). -/
structure VelocityDetails where
  transactionsFiveMin : ℚ
  transactionsOneHour : ℚ
  transactionsTwentyFourHours : ℚ
  amountFiveMin : ℚ
  amountOneHour : ℚ
  amountTwentyFourHours : ℚ
deriving DecidableEq, Repr

/-- Risk factor produced by an analyzer (src/types `RiskFactor`).
The `score` field is the raw score. -/
structure RiskFactor where
  method : Method
  score : ℚ
  weight : ℚ
  contributedScore : ℚ
  reason : String
  velocityDetails : Option VelocityDetails := none
deriving DecidableEq, Repr

/-! Configuration defaults (src/config/config.ts).  The service reads
these from the environment; the values embedded here are the documented
defaults used when no override is present. -/
namespace config

def approveMax : ℚ := 0.50

def suspiciousMin : ℚ := 0.50

def suspiciousMax : ℚ := 0.80

def rejectMin : ℚ := 0.80

def velocityWeightFiveMinute : ℚ := 0.15

def velocityWeightOneHour : ℚ := 0.10

def velocityWeightTwentyFourHours : ℚ := 0.08

def geographicWeight : ℚ := 0.35

def amountWeight : ℚ := 0.25

def recipientWeight : ℚ := 0.30

def timeWeight : ℚ := 0.10

def deviceWeight : ℚ := 0.20

def maxTransfersPerFiveMin : ℚ := 3

def maxTransfersPerHour : ℚ := 10

def maxTransfersPerDay : ℚ := 50

def unusualMultiplier : ℚ := 5.0

def largeTransferMin : ℚ := 10000

def impossibleTravelHours : ℚ := 2.0

def newRecipientDays : ℚ := 30

def trustedRecipientMinTransfers : ℕ := 5

end config

/-- Result record assembled by
`FraudDetectionService.calculateFinalDecision` (src/types
`FraudAnalysisResult`; the string `timestamp` and numeric
`analysisTimeMs` bookkeeping fields are omitted as no claim consults
them). -/
structure FraudAnalysisResult where
  transactionId : String
  userId : String
  score : ℚ
  decision : RiskDecision
  confidence : ConfidenceLevel
  status : AnalysisStatus
  riskFactors : List RiskFactor
  modelVersion : String
  requiresManualReview : Bool
deriving DecidableEq, Repr

/-- Sum of contributed scores accumulated by the `forEach` loop of
`calculateFinalDecision`. -/
def totalContributed (riskFactors : List RiskFactor) : ℚ :=
  riskFactors.foldl (fun acc f => acc + f.contributedScore) 0

/-- Embedding of `FraudDetectionService.calculateFinalDecision`
(src/src/services/TimeAnalyzer.ts, second document, lines 658-698). -/
def calculateFinalDecision (transactionId userId : String)
    (riskFactors : List RiskFactor) (modelVersion : String) :
    FraudAnalysisResult :=
  let totalScore := totalContributed riskFactors
  let finalScore := min totalScore 1
  let requiresManualReview := decide (config.suspiciousMin ≤ finalScore)
  let decision : RiskDecision :=
    if config.rejectMin ≤ finalScore then .REJECT
    else if requiresManualReview then .SUSPICIOUS
    else .APPROVE
  { transactionId := transactionId
    userId := userId
    score := finalScore
    decision := decision
    confidence := .HIGH
    status := .COMPLETED
    riskFactors := riskFactors
    modelVersion := modelVersion
    requiresManualReview := requiresManualReview }

/-! User transaction history (src/types `UserTransactionHistory`). -/
/-- One transaction of the cached user history.  `day` and `hour` are the
JS `Date#getDay` / `Date#getHours` projections of `timestamp`, computed by
the runtime and therefore carried as fields here. -/
structure HistoryTx where
  amount : ℚ
  recipientId : String
  country : Option String
  deviceFingerprint : Option String
  timestampMs : ℤ
  day : ℕ
  hour : ℕ
deriving DecidableEq, Repr

/-- Aggregate statistics of the cached user history. -/
structure HistoryStats where
  totalTransactions : ℕ
  averageAmount : ℚ
  maxAmount : ℚ
  minAmount : ℚ
  standardDeviation : ℚ
  accountCreatedAtMs : ℤ
deriving DecidableEq, Repr

/-- Cached user history snapshot. -/
structure UserTransactionHistory where
  transactions : List HistoryTx
  statistics : HistoryStats
deriving DecidableEq, Repr

/-! RecipientAnalyzer (src/src/services/RecipientAnalyzer.ts). -/
/-- Blocklist entry as returned by `cacheService.isInBlocklist`. -/
structure BlocklistCacheEntry where
  isActive : Bool
  reason : String
deriving DecidableEq, Repr

/-- Recipient info record (src/types `RecipientInfo`); `accountAge` and
`country` are optional fields that `computeRecipientInfo` leaves
undefined. -/
structure RecipientInfo where
  recipientId : String
  isBlocked : Bool
  isNew : Bool
  firstTransactionAtMs : Option ℤ
  totalTransactions : ℕ
  totalAmount : ℚ
  riskScore : ℚ
  accountAge : Option ℚ
  country : Option String
  isVerified : Bool
deriving DecidableEq, Repr

/-- Environment of one `RecipientAnalyzer.analyze` call: the values the
cache and database return for this transaction, plus the current clock.
`dbBlockReason` is the `reason` of the active `FraudBlocklist` row whose
`valueHash` matches the SHA-256 of the recipientId or of the account id
(`none` when the `findOne` query returns no row). -/
structure RecipientEnv where
  cacheRecipientBlock : Option BlocklistCacheEntry
  cacheAccountBlock : Option BlocklistCacheEntry
  dbBlockReason : Option String
  cachedRecipientInfo : Option RecipientInfo
  nowMs : ℤ
deriving DecidableEq, Repr

namespace RecipientAnalyzer

/-- Second and third steps of `RecipientAnalyzer.checkBlocklist`: the
ACCOUNT cache lookup on the destination account id, then the database
query over both hashes. -/
def checkBlocklistAccount (env : RecipientEnv) : Bool :=
  match env.cacheAccountBlock with
  | some e => if e.isActive then true else env.dbBlockReason.isSome
  | none => env.dbBlockReason.isSome

/-- Embedding of `RecipientAnalyzer.checkBlocklist`: cache lookup for the
recipientId, then for the account id, then the database query; fail-open
branches cannot arise in the pure model. -/
def checkBlocklist (env : RecipientEnv) : Bool :=
  match env.cacheRecipientBlock with
  | some e => if e.isActive then true else checkBlocklistAccount env
  | none => checkBlocklistAccount env

/-- Embedding of `RecipientAnalyzer.computeRecipientInfo`. -/
def computeRecipientInfo (recipientId : String)
    (userHistory : Option UserTransactionHistory) : RecipientInfo :=
  match userHistory with
  | none =>
      { recipientId := recipientId, isBlocked := false, isNew := true
        firstTransactionAtMs := none, totalTransactions := 0
        totalAmount := 0, riskScore := 0.2, accountAge := none
        country := none, isVerified := false }
  | some h =>
      let recipientTx := h.transactions.filter (fun tx => tx.recipientId == recipientId)
      match recipientTx with
      | [] =>
          { recipientId := recipientId, isBlocked := false, isNew := true
            firstTransactionAtMs := none, totalTransactions := 0
            totalAmount := 0, riskScore := 0.2, accountAge := none
            country := none, isVerified := false }
      | t0 :: rest =>
          let totalAmount := recipientTx.foldl (fun s tx => s + tx.amount) 0
          let firstTx := rest.foldl
            (fun earliest tx =>
              if tx.timestampMs < earliest.timestampMs then tx else earliest) t0
          let riskScore : ℚ :=
            if config.trustedRecipientMinTransfers ≤ recipientTx.length then 0.05
            else if 2 ≤ recipientTx.length then 0.10
            else 0.2
          { recipientId := recipientId, isBlocked := false, isNew := false
            firstTransactionAtMs := some firstTx.timestampMs
            totalTransactions := recipientTx.length
            totalAmount := totalAmount, riskScore := riskScore
            accountAge := none, country := none, isVerified := true }

/-- Embedding of `RecipientAnalyzer.checkNewRecipient`; returns the
detected flag and the score contribution. -/
def checkNewRecipient (recipientId : String) (info : Option RecipientInfo)
    (trustedRecipients : List String) (nowMs : ℤ) : Bool × ℚ :=
  if trustedRecipients.contains recipientId then (false, 0)
  else
    match info with
    | none => (true, 0.15)
    | some ri =>
        if ri.isNew then (true, 0.15)
        else
          match ri.firstTransactionAtMs with
          | some t =>
              let daysSinceFirst : ℚ := ((nowMs - t : ℤ) : ℚ) / (1000 * 60 * 60 * 24)
              if daysSinceFirst < config.newRecipientDays ∧ ri.totalTransactions < 3 then
                (true, 0.10)
              else (false, 0)
          | none => (false, 0)

/-- Embedding of `RecipientAnalyzer.countRecentNewRecipients`. -/
def countRecentNewRecipients (nowMs : ℤ) (h : UserTransactionHistory) : ℕ :=
  let oneDayAgo := nowMs - 24 * 60 * 60 * 1000
  let recentTx := h.transactions.filter (fun tx => oneDayAgo < tx.timestampMs)
  let recentRecipients := (recentTx.map (fun tx => tx.recipientId)).dedup
  let olderTx := h.transactions.filter (fun tx => tx.timestampMs ≤ oneDayAgo)
  let established := olderTx.map (fun tx => tx.recipientId)
  recentRecipients.countP (fun r => !(established.contains r))

/-- The cached-or-computed recipient info consulted by `analyze`. -/
def recipientInfoOf (env : RecipientEnv) (recipientId : String)
    (userHistory : Option UserTransactionHistory) : Option RecipientInfo :=
  match env.cachedRecipientInfo with
  | some ri => some ri
  | none => some (computeRecipientInfo recipientId userHistory)

/-- The elevated-risk-score contribution of `analyze`
(riskScore·0.2 when the recipient's risk score exceeds 0.3). -/
def riskScoreContribution (recipientInfo : Option RecipientInfo) : ℚ :=
  match recipientInfo with
  | some ri => if 0.3 < ri.riskScore then ri.riskScore * 0.2 else 0
  | none => 0

/-- The young-recipient-account contribution of `analyze`. -/
def accountAgeContribution (recipientInfo : Option RecipientInfo) : ℚ :=
  match recipientInfo with
  | some ri =>
      match ri.accountAge with
      | some age => if age < 30 then 0.10 else 0
      | none => 0
  | none => 0

/-- The high-risk-country contribution of `analyze`. -/
def countryContribution (recipientInfo : Option RecipientInfo) : ℚ :=
  match recipientInfo with
  | some ri =>
      match ri.country with
      | some c => if ["NG", "RU", "VN", "UA", "RO"].contains c then 0.08 else 0
      | none => 0
  | none => 0

/-- The unverified-recipient contribution of `analyze`. -/
def verifiedContribution (recipientInfo : Option RecipientInfo) : ℚ :=
  match recipientInfo with
  | some ri => if ri.isVerified then 0 else 0.05
  | none => 0

/-- The new-recipient-burst contribution of `analyze`. -/
def burstContribution (isNewDetected : Bool)
    (userHistory : Option UserTransactionHistory) (nowMs : ℤ) : ℚ :=
  match userHistory with
  | some h =>
      if isNewDetected ∧ 3 ≤ countRecentNewRecipients nowMs h then 0.12
      else 0
  | none => 0

/-- The pre-cap additive total of the non-blocklist branch of
`analyze`. -/
def ruleScore (env : RecipientEnv) (recipientId : String)
    (userHistory : Option UserTransactionHistory)
    (trustedRecipients : List String) : ℚ :=
  let recipientInfo := recipientInfoOf env recipientId userHistory
  let isNewRecipient := checkNewRecipient recipientId recipientInfo
    trustedRecipients env.nowMs
  (if isNewRecipient.1 then isNewRecipient.2 else 0) +
  riskScoreContribution recipientInfo +
  accountAgeContribution recipientInfo +
  countryContribution recipientInfo +
  verifiedContribution recipientInfo +
  burstContribution isNewRecipient.1 userHistory env.nowMs

/-- Embedding of `RecipientAnalyzer.analyze`.  The blocklist branch
returns the hard-reject factor; otherwise the additive rules run, capped
at 0.45. -/
def analyze (env : RecipientEnv) (recipientId : String)
    (userHistory : Option UserTransactionHistory)
    (trustedRecipients : List String) : RiskFactor :=
  if checkBlocklist env then
    { method := .RECIPIENT, score := 1.0, weight := config.recipientWeight
      contributedScore := 1.0, reason := "Recipient is on fraud blocklist" }
  else
    let totalScore :=
      min (ruleScore env recipientId userHistory trustedRecipients) 0.45
    { method := .RECIPIENT, score := totalScore, weight := config.recipientWeight
      contributedScore := totalScore * config.recipientWeight
      reason := "recipient rules" }

end RecipientAnalyzer

/-! Outbound publication (src/src/kafka/EventPublisher.ts and
`FraudDetectionService.publishResult`). -/
/-- Fraud event types of the publisher. -/
inductive FraudEventType
  | FraudAnalysisComplete
  | FraudSuspected
  | FraudRejected
  | ManualReviewRequired
  | ManualReviewComplete
  | BlocklistMatch
deriving DecidableEq, Repr

/-- Outbound Kafka topics (src/config/config.ts `kafka.topics`). -/
inductive Topic
  | fraudAnalysis
  | fraudSuspected
  | fraudManualReview
  | fraudReviewComplete
deriving DecidableEq, Repr

/-- Priority of a manual-review request. -/
inductive ReviewPriority
  | HIGH
  | MEDIUM
deriving DecidableEq, Repr

/-- One message produced on the bus: target topic, envelope eventType,
message key (the transactionId), and the review priority when the payload
is a ManualReviewRequest. -/
structure OutboundEvent where
  topic : Topic
  eventType : FraudEventType
  key : String
  priority : Option ReviewPriority := none
deriving DecidableEq, Repr

/-- Embedding of `FraudDetectionService.publishResult`: REJECT publishes
FraudSuspected; SUSPICIOUS (or any result flagged for manual review)
publishes FraudSuspected plus ManualReviewRequired with priority HIGH when
score > 0.8 and MEDIUM otherwise; every other result publishes
FraudAnalysisComplete. -/
def publishResult (r : FraudAnalysisResult) : List OutboundEvent :=
  if r.decision = .REJECT then
    [{ topic := .fraudSuspected, eventType := .FraudSuspected, key := r.transactionId }]
  else if r.decision = .SUSPICIOUS ∨ r.requiresManualReview then
    [{ topic := .fraudSuspected, eventType := .FraudSuspected, key := r.transactionId },
     { topic := .fraudManualReview, eventType := .ManualReviewRequired
       key := r.transactionId
       priority := some (if 0.8 < r.score then .HIGH else .MEDIUM) }]
  else
    [{ topic := .fraudAnalysis, eventType := .FraudAnalysisComplete, key := r.transactionId }]

/-! AmountAnalyzer (src/src/services/AmountAnalyzer.ts). -/
namespace AmountAnalyzer

/-- Embedding of `AmountAnalyzer.getDefaultStats`; `accountCreatedAt` is
`new Date()`, i.e. the current clock. -/
def getDefaultStats (nowMs : ℤ) : HistoryStats :=
  { totalTransactions := 0, averageAmount := 0, maxAmount := 0
    minAmount := 0, standardDeviation := 0, accountCreatedAtMs := nowMs }

/-- Embedding of `AmountAnalyzer.checkUnusualAmount` (score part). -/
def checkUnusualAmount (amount : ℚ) (stats : HistoryStats) : ℚ :=
  if stats.totalTransactions < 5 ∨ stats.averageAmount = 0 then 0
  else
    let ratio := amount / stats.averageAmount
    if config.unusualMultiplier * 2 ≤ ratio then 0.20
    else if config.unusualMultiplier ≤ ratio then 0.12
    else 0

/-- Embedding of `AmountAnalyzer.checkExceedsMax` (score part).  Note the
guard is `totalTransactions < 3`, not `< 5`. -/
def checkExceedsMax (amount : ℚ) (stats : HistoryStats) : ℚ :=
  if stats.totalTransactions < 3 ∨ stats.maxAmount = 0 then 0
  else if stats.maxAmount * 2 < amount then 0.15
  else if stats.maxAmount * 1.5 < amount then 0.08
  else 0

/-- Embedding of `AmountAnalyzer.checkAbsoluteLarge` (score part). -/
def checkAbsoluteLarge (amount : ℚ) : ℚ :=
  if config.largeTransferMin * 10 ≤ amount then 0.12
  else if config.largeTransferMin * 5 ≤ amount then 0.08
  else if config.largeTransferMin ≤ amount then 0.04
  else 0

/-- JS `amount % 100 === 0` on a (possibly fractional) positive number:
the quotient by 100 is an integer. -/
def isMultipleOf100 (a : ℚ) : Bool := (a / 100).den == 1

/-- Embedding of `AmountAnalyzer.checkRoundNumber` (score part). -/
def checkRoundNumber (amount : ℚ) : ℚ :=
  if ([1000, 2000, 5000, 10000, 20000, 50000, 100000] : List ℚ).contains amount then 0.05
  else if 500 ≤ amount ∧ isMultipleOf100 amount then 0.03
  else 0

/-- Embedding of `AmountAnalyzer.checkBelowReportingThreshold` (score
part). -/
def checkBelowReportingThreshold (amount : ℚ) : ℚ :=
  if 9000 ≤ amount ∧ amount < 10000 then 0.15
  else if 4800 ≤ amount ∧ amount < 5000 then 0.08
  else if 2900 ≤ amount ∧ amount < 3000 then 0.05
  else 0

/-- Embedding of `AmountAnalyzer.checkZScore` (score part); only invoked
by `analyze` when the standard deviation is positive. -/
def checkZScore (amount : ℚ) (stats : HistoryStats) : ℚ :=
  let zScore := (amount - stats.averageAmount) / stats.standardDeviation
  if 4 ≤ zScore then 0.18
  else if 3 ≤ zScore then 0.12
  else if 2 ≤ zScore then 0.06
  else 0

/-- The z-score contribution as guarded in `analyze`
(`if (stats.standardDeviation > 0)`). -/
def zScoreContribution (amount : ℚ) (stats : HistoryStats) : ℚ :=
  if 0 < stats.standardDeviation then checkZScore amount stats else 0

/-- Embedding of `AmountAnalyzer.isNewAccount`. -/
def isNewAccount (stats : HistoryStats) (nowMs : ℤ) : Bool :=
  let daysSinceCreation : ℚ :=
    ((nowMs - stats.accountCreatedAtMs : ℤ) : ℚ) / (1000 * 60 * 60 * 24)
  daysSinceCreation < 30

/-- The statistics used by `analyze`
(`userHistory?.statistics || this.getDefaultStats()`). -/
def statsOf (userHistory : Option UserTransactionHistory) (nowMs : ℤ) :
    HistoryStats :=
  match userHistory with
  | some h => h.statistics
  | none => getDefaultStats nowMs

/-- The new-account-large-transfer contribution of `analyze`. -/
def newAccountLarge (amount : ℚ) (stats : HistoryStats) (nowMs : ℤ) : ℚ :=
  if isNewAccount stats nowMs ∧ 1000 < amount then 0.08 else 0

/-- The pre-cap additive total of `analyze`. -/
def rawTotal (amount : ℚ) (stats : HistoryStats) (nowMs : ℤ) : ℚ :=
  checkUnusualAmount amount stats + checkExceedsMax amount stats +
  checkAbsoluteLarge amount + checkRoundNumber amount +
  checkBelowReportingThreshold amount + zScoreContribution amount stats +
  newAccountLarge amount stats nowMs

/-- Embedding of `AmountAnalyzer.analyze`: additive rules capped at
0.40. -/
def analyze (amount : ℚ) (userHistory : Option UserTransactionHistory)
    (nowMs : ℤ) : RiskFactor :=
  let totalScore := min (rawTotal amount (statsOf userHistory nowMs) nowMs) 0.40
  { method := .AMOUNT, score := totalScore, weight := config.amountWeight
    contributedScore := totalScore * config.amountWeight
    reason := "amount rules" }

end AmountAnalyzer

/-! MLModelService and the rule-based fallback model
(src/unnamed/part_003). -/
/-- ML feature record (src/types `MLFeatures`); every field is a JS
number (booleans encoded 0/1). -/
structure MLFeatures where
  txCountFiveMin : ℚ
  txCountOneHour : ℚ
  txCountTwentyFourHours : ℚ
  amountFiveMin : ℚ
  amountOneHour : ℚ
  amountTwentyFourHours : ℚ
  amount : ℚ
  amountRatioToAvg : ℚ
  amountRatioToMax : ℚ
  amountZScore : ℚ
  isNewCountry : ℚ
  distanceFromLastTx : ℚ
  impossibleTravel : ℚ
  hourOfDay : ℚ
  dayOfWeek : ℚ
  isUnusualHour : ℚ
  timeSinceLastTx : ℚ
  isNewRecipient : ℚ
  recipientRiskScore : ℚ
  recipientTxCount : ℚ
  isNewDevice : ℚ
  deviceTrustScore : ℚ
  accountAge : ℚ
  totalTxCount : ℚ
  avgTxAmount : ℚ
  previousFraudFlags : ℚ

/-- Embedding of `MLModelService.featuresToArray`: the 26-entry feature
vector in the fixed documented order. -/
def featuresToArray (f : MLFeatures) : List ℚ :=
  [f.txCountFiveMin, f.txCountOneHour, f.txCountTwentyFourHours,
   f.amountFiveMin, f.amountOneHour, f.amountTwentyFourHours,
   f.amount, f.amountRatioToAvg, f.amountRatioToMax, f.amountZScore,
   f.isNewCountry, f.distanceFromLastTx, f.impossibleTravel,
   f.hourOfDay, f.dayOfWeek, f.isUnusualHour, f.timeSinceLastTx,
   f.isNewRecipient, f.recipientRiskScore, f.recipientTxCount,
   f.isNewDevice, f.deviceTrustScore, f.accountAge, f.totalTxCount,
   f.avgTxAmount, f.previousFraudFlags]

namespace RuleBasedModel

/-- Embedding of `RuleBasedModel.predict` exactly as coded: the local
variables named isNewRecipient, isNewDevice and prevFraudFlags read
indices 15, 18 and 23 of the vector, although `getFeatureNames` of the
same class places isNewRecipient at 17, isNewDevice at 20 and
previousFraudFlags at 25 (indices 15, 18 and 23 hold isUnusualHour,
recipientRiskScore and totalTxCount).  `features[i] || 0` is the
identity on present numeric entries (0 falls back to 0) and 0 past the
end of the vector.  This is the pre-cap rule sum. -/
def rawScore (features : List ℚ) : ℚ :=
  let velocity5m := features.getD 0 0
  let velocity1h := features.getD 1 0
  let amountRatio := features.getD 7 0
  let impossibleTravel := features.getD 12 0
  let isNewRecipient := features.getD 15 0
  let isNewDevice := features.getD 18 0
  let prevFraudFlags := features.getD 23 0
  (if 3 < velocity5m then 0.15 else 0) +
  (if 10 < velocity1h then 0.10 else 0) +
  (if 5 < amountRatio then 0.20 else 0) +
  (if 0 < impossibleTravel then 0.30 else 0) +
  (if 0 < isNewRecipient then 0.10 else 0) +
  (if 0 < isNewDevice then 0.10 else 0) +
  (if 0 < prevFraudFlags then 0.15 * min prevFraudFlags 3 else 0)

/-- `RuleBasedModel.predict`: the rule sum capped at 0.95, with the fixed
confidence 0.7. -/
def predict (features : List ℚ) : ℚ × ℚ :=
  (min (rawScore features) 0.95, 0.7)

end RuleBasedModel

/-- Modelled from the spec: the rule-based fallback score as the claim
states it, over the NAMED features rather than vector indices — +0.15 if
txCountFiveMin > 3; +0.10 if txCountOneHour > 10; +0.20 if
amountRatioToAvg > 5; +0.30 if impossibleTravel is set; +0.10 if
isNewRecipient is set; +0.10 if isNewDevice is set;
+0.15·min(previousFraudFlags, 3); capped at 0.95. -/
def ruleBasedScoreSpec (f : MLFeatures) : ℚ :=
  min ((if 3 < f.txCountFiveMin then 0.15 else 0) +
       (if 10 < f.txCountOneHour then 0.10 else 0) +
       (if 5 < f.amountRatioToAvg then 0.20 else 0) +
       (if 0 < f.impossibleTravel then 0.30 else 0) +
       (if 0 < f.isNewRecipient then 0.10 else 0) +
       (if 0 < f.isNewDevice then 0.10 else 0) +
       0.15 * min f.previousFraudFlags 3) 0.95

/-- Feature record that only sets isNewRecipient (index 17 of the fixed
order); all other entries zero. -/
def mlFeaturesNewRecipientOnly : MLFeatures :=
  { txCountFiveMin := 0, txCountOneHour := 0, txCountTwentyFourHours := 0
    amountFiveMin := 0, amountOneHour := 0, amountTwentyFourHours := 0
    amount := 0, amountRatioToAvg := 0, amountRatioToMax := 0
    amountZScore := 0, isNewCountry := 0, distanceFromLastTx := 0
    impossibleTravel := 0, hourOfDay := 0, dayOfWeek := 0
    isUnusualHour := 0, timeSinceLastTx := 0, isNewRecipient := 1
    recipientRiskScore := 0, recipientTxCount := 0, isNewDevice := 0
    deviceTrustScore := 0, accountAge := 0, totalTxCount := 0
    avgTxAmount := 0, previousFraudFlags := 0 }

/-- Feature record that only sets isUnusualHour (index 15). -/
def mlFeaturesUnusualHourOnly : MLFeatures :=
  { txCountFiveMin := 0, txCountOneHour := 0, txCountTwentyFourHours := 0
    amountFiveMin := 0, amountOneHour := 0, amountTwentyFourHours := 0
    amount := 0, amountRatioToAvg := 0, amountRatioToMax := 0
    amountZScore := 0, isNewCountry := 0, distanceFromLastTx := 0
    impossibleTravel := 0, hourOfDay := 0, dayOfWeek := 0
    isUnusualHour := 1, timeSinceLastTx := 0, isNewRecipient := 0
    recipientRiskScore := 0, recipientTxCount := 0, isNewDevice := 0
    deviceTrustScore := 0, accountAge := 0, totalTxCount := 0
    avgTxAmount := 0, previousFraudFlags := 0 }

/-! EventConsumer ingress validation (src/unnamed/part_002). -/
/-- Loosely-typed payload as it arrives from `JSON.parse`; `none` for a
field stands for an absent value or one of the wrong runtime type, and JS
falsiness makes the empty string invalid as well. -/
structure LoosePayload where
  transactionId : Option String
  userId : Option String
  amount : Option ℚ
  recipientId : Option String
deriving DecidableEq, Repr

/-- Parsed inbound event; `payload` may be missing entirely. -/
structure LooseEvent where
  payload : Option LoosePayload
deriving DecidableEq, Repr

/-- Outcome of `EventConsumer.handleMessage` for one message. -/
inductive ConsumeOutcome
  | skippedWarning
  | processed
  | errored
deriving DecidableEq, Repr

namespace EventConsumer

/-- Embedding of `EventConsumer.validateEvent`. -/
def validateEvent (e : LooseEvent) : Bool :=
  match e.payload with
  | none => false
  | some p =>
      (match p.transactionId with
       | some s => !(s == "")
       | none => false) &&
      (match p.userId with
       | some s => !(s == "")
       | none => false) &&
      (match p.amount with
       | some a => decide (0 < a)
       | none => false) &&
      (match p.recipientId with
       | some s => !(s == "")
       | none => false)

/-- Embedding of `EventConsumer.handleMessage`.  The input is the result
of `parseMessage` (`none` for a null body or malformed JSON);
`handlerFails` records whether the downstream pipeline call rejects, in
which case the error is rethrown to trigger the Kafka retry.  Returns the
outcome together with whether the fraud pipeline handler was invoked. -/
def handleMessage (parsed : Option LooseEvent) (handlerFails : Bool) :
    ConsumeOutcome × Bool :=
  match parsed with
  | none => (.skippedWarning, false)
  | some e =>
      if validateEvent e then
        (if handlerFails then (.errored, true) else (.processed, true))
      else (.skippedWarning, false)

end EventConsumer

/-! CacheService velocity counters (src/src/models/ModelPerformance.ts,
second document) and the VelocityAnalyzer (src/src/services/
AmountAnalyzer.ts, second document). -/
/-- Velocity window. -/
inductive Window
  | fiveMin
  | oneHour
  | twentyFourHours
deriving DecidableEq, Repr

/-- Idempotency marker stored by `cacheService.cacheAnalysis`. -/
structure CachedAnalysisMarker where
  decision : RiskDecision
  score : ℚ
deriving DecidableEq, Repr

/-- Persisted `FraudAnalysis` row (fields written by
`FraudDetectionService.saveAnalysis`). -/
structure SavedAnalysis where
  transactionId : String
  userId : String
  score : ℚ
  decision : RiskDecision
  confidence : ConfidenceLevel
  status : AnalysisStatus
  requiresManualReview : Bool
deriving DecidableEq, Repr

/-- The mutable system state touched by one pipeline run: idempotency
markers, velocity counters (count and amount sum per user and window),
persisted analyses, and the outbound events produced on the bus. -/
structure SysState where
  markers : List (String × CachedAnalysisMarker)
  velocity : List ((String × Window) × ℕ × ℚ)
  analyses : List SavedAnalysis
  published : List OutboundEvent
deriving DecidableEq, Repr

namespace CacheService

/-- Embedding of `cacheService.getCachedAnalysis`. -/
def getCachedAnalysis (s : SysState) (transactionId : String) :
    Option CachedAnalysisMarker :=
  match s.markers.find? (fun kv => kv.1 == transactionId) with
  | some kv => some kv.2
  | none => none

/-- Embedding of `cacheService.cacheAnalysis`. -/
def cacheAnalysis (s : SysState) (transactionId : String)
    (m : CachedAnalysisMarker) : SysState :=
  { s with markers := (transactionId, m) :: s.markers }

/-- Embedding of `cacheService.getVelocity` (count and totalAmount keys,
zero when absent). -/
def getVelocity (s : SysState) (userId : String) (w : Window) : ℕ × ℚ :=
  match s.velocity.find? (fun kv => kv.1 == (userId, w)) with
  | some kv => kv.2
  | none => (0, 0)

/-- Embedding of `cacheService.incrementVelocity`: INCR the count and
INCRBYFLOAT the amount for one window. -/
def incrementVelocity (s : SysState) (userId : String) (w : Window)
    (amount : ℚ) : SysState :=
  let cur := getVelocity s userId w
  { s with velocity :=
      ((userId, w), cur.1 + 1, cur.2 + amount)
        :: s.velocity.filter (fun kv => !(kv.1 == (userId, w))) }

end CacheService

namespace VelocityAnalyzer

/-- One window-threshold rule of `VelocityAnalyzer.analyze`:
weight·min(observed/threshold, 2) when the observed count reaches the
threshold. -/
def windowScore (observed : ℕ) (threshold weight : ℚ) : ℚ :=
  if threshold ≤ (observed : ℚ) then
    weight * min ((observed : ℚ) / threshold) 2.0
  else 0

/-- The amount-spike rule of `analyze` (0.12 when the 5-minute total with
the current amount exceeds 10× the average 24-hour amount). -/
def amountSpikeScore (five day : ℕ × ℚ) (amount : ℚ) : ℚ :=
  if 0 < day.1 then
    let avgDailyAmount := day.2 / (day.1 : ℚ)
    let recentTotalWithCurrent := five.2 + amount
    if avgDailyAmount * 10 < recentTotalWithCurrent then 0.12 else 0
  else 0

/-- The rapid-diverse-recipients rule of `analyze`; the unique-recipient
counter of `getVelocityData` is the constant 0. -/
def rapidDiverseScore (five : ℕ × ℚ) : ℚ :=
  let uniqueRecipientsFiveMin : ℕ := 0
  if 3 ≤ five.1 ∧ 3 ≤ uniqueRecipientsFiveMin then 0.10 else 0

/-- The pre-cap additive total of `analyze` over the three window reads. -/
def rawScore (five hour day : ℕ × ℚ) (amount : ℚ) : ℚ :=
  windowScore five.1 config.maxTransfersPerFiveMin config.velocityWeightFiveMinute +
  windowScore hour.1 config.maxTransfersPerHour config.velocityWeightOneHour +
  windowScore day.1 config.maxTransfersPerDay config.velocityWeightTwentyFourHours +
  amountSpikeScore five day amount +
  rapidDiverseScore five

/-- Embedding of `VelocityAnalyzer.analyze`: reads the three windows,
increments them, scores the window thresholds, the amount spike and the
rapid-diverse-recipients rule, capped at 0.45.  The factor has weight
1.0 and carries the incremented counters in its details. -/
def analyze (s : SysState) (userId : String) (amount : ℚ) :
    RiskFactor × SysState :=
  let five := CacheService.getVelocity s userId .fiveMin
  let hour := CacheService.getVelocity s userId .oneHour
  let day := CacheService.getVelocity s userId .twentyFourHours
  let s1 := CacheService.incrementVelocity s userId .fiveMin amount
  let s2 := CacheService.incrementVelocity s1 userId .oneHour amount
  let s3 := CacheService.incrementVelocity s2 userId .twentyFourHours amount
  let totalScore := min (rawScore five hour day amount) 0.45
  ({ method := .VELOCITY, score := totalScore, weight := 1.0
     contributedScore := totalScore
     reason := "velocity rules"
     velocityDetails := some
       { transactionsFiveMin := (five.1 : ℚ) + 1
         transactionsOneHour := (hour.1 : ℚ) + 1
         transactionsTwentyFourHours := (day.1 : ℚ) + 1
         amountFiveMin := five.2 + amount
         amountOneHour := hour.2 + amount
         amountTwentyFourHours := day.2 + amount } }, s3)

end VelocityAnalyzer

/-! TimeAnalyzer (src/src/services/TimeAnalyzer.ts, first document). -/
namespace TimeAnalyzer

/-- Embedding of `TimeAnalyzer.getMinHourDistance` (circular distance,
starting from 24). -/
def getMinHourDistance (hour : ℕ) (preferredHours : List ℕ) : ℕ :=
  preferredHours.foldl
    (fun minDistance prefHour =>
      let d := ((hour : ℤ) - (prefHour : ℤ)).natAbs
      min minDistance (min d (24 - d)))
    24

/-- Embedding of `TimeAnalyzer.checkUnusualHour` (score part). -/
def checkUnusualHour (hour : ℕ) (preferredHours : List ℕ) : ℚ :=
  if preferredHours = [] then
    if 1 ≤ hour ∧ hour ≤ 5 then 0.06 else 0
  else if !(preferredHours.contains hour) then
    let minDistance := getMinHourDistance hour preferredHours
    if 6 ≤ minDistance then 0.10
    else if 3 ≤ minDistance then 0.05
    else 0
  else 0

/-- Embedding of `TimeAnalyzer.checkUnusualDay` (score part). -/
def checkUnusualDay (day : ℕ) (preferredDays : List ℕ) : ℚ :=
  if preferredDays = [] then 0
  else if !(preferredDays.contains day) then
    let isWeekend := day == 0 || day == 6
    if isWeekend ∧ !(preferredDays.contains 0) ∧ !(preferredDays.contains 6) then 0.06
    else 0.04
  else 0

/-- Embedding of `TimeAnalyzer.checkLateNight` (score part). -/
def checkLateNight (hour : ℕ) : ℚ :=
  if 2 ≤ hour ∧ hour ≤ 5 then 0.08
  else if hour ≤ 1 then 0.04
  else 0

/-- Embedding of `TimeAnalyzer.checkWeekendPattern` (score part). -/
def checkWeekendPattern (day : ℕ)
    (userHistory : Option UserTransactionHistory) : ℚ :=
  match userHistory with
  | none => 0
  | some h =>
      if h.transactions.length < 10 then 0
      else if !(day == 0 || day == 6) then 0
      else
        let weekendTx := h.transactions.filter
          (fun tx => tx.day == 0 || tx.day == 6)
        if 50 ≤ h.statistics.totalTransactions ∧ weekendTx.length = 0 then 0.08
        else 0

/-- Embedding of `TimeAnalyzer.checkHoliday` (score part); `month` is the
0-indexed JS month and `date` the day of month. -/
def checkHoliday (month date : ℕ) : ℚ :=
  if (month == 0 && date == 1) || (month == 6 && date == 4) ||
     (month == 11 && date == 25) || (month == 11 && date == 31) then 0.04
  else 0

/-- Embedding of `TimeAnalyzer.checkActivityBurst` (score part). -/
def checkActivityBurst (hour : ℕ)
    (userHistory : Option UserTransactionHistory) (nowMs : ℤ) : ℚ :=
  match userHistory with
  | none => 0
  | some h =>
      let oneHourAgo := nowMs - 60 * 60 * 1000
      let recentTx := h.transactions.filter (fun tx => oneHourAgo < tx.timestampMs)
      if (1 ≤ hour ∧ hour ≤ 5) ∧ 3 ≤ recentTx.length then 0.10
      else 0

/-- The pre-cap additive total of `TimeAnalyzer.analyze`. -/
def rawTotal (hour day month date : ℕ)
    (userHistory : Option UserTransactionHistory)
    (preferredHours preferredDays : List ℕ) (nowMs : ℤ) : ℚ :=
  checkUnusualHour hour preferredHours +
  checkUnusualDay day preferredDays +
  checkLateNight hour +
  checkWeekendPattern day userHistory +
  checkHoliday month date +
  checkActivityBurst hour userHistory nowMs

/-- Embedding of `TimeAnalyzer.analyze`: the additive rules capped at
0.25; `hour`, `day`, `month`, `date` are the JS Date projections of the
transaction timestamp. -/
def analyze (hour day month date : ℕ)
    (userHistory : Option UserTransactionHistory)
    (preferredHours preferredDays : List ℕ) (nowMs : ℤ) : RiskFactor :=
  let totalScore :=
    min (rawTotal hour day month date userHistory preferredHours
      preferredDays nowMs) 0.25
  { method := .TIME, score := totalScore, weight := config.timeWeight
    contributedScore := totalScore * config.timeWeight
    reason := "time rules" }

/-- Embedding of `TimeAnalyzer.buildPreferredHours`: hours holding at
least 10% of the user's history, requiring at least 10 transactions. -/
def buildPreferredHours (userHistory : Option UserTransactionHistory) :
    List ℕ :=
  match userHistory with
  | none => []
  | some h =>
      if h.transactions.length < 10 then []
      else
        (List.range 24).filter (fun hr =>
          (h.transactions.length : ℚ) * 0.1 ≤
            (h.transactions.countP (fun tx => tx.hour == hr) : ℚ))

/-- Embedding of `TimeAnalyzer.buildPreferredDays`: days holding at least
5% of the user's history, requiring at least 10 transactions. -/
def buildPreferredDays (userHistory : Option UserTransactionHistory) :
    List ℕ :=
  match userHistory with
  | none => []
  | some h =>
      if h.transactions.length < 10 then []
      else
        (List.range 7).filter (fun d =>
          (h.transactions.length : ℚ) * 0.05 ≤
            (h.transactions.countP (fun tx => tx.day == d) : ℚ))

end TimeAnalyzer

/-! GeographicAnalyzer (src/unnamed/part_003, second document). -/
/-- Geo location record (src/types `GeoLocation`). -/
structure GeoLocation where
  ip : Option String
  country : Option String
  city : Option String
  latitude : Option ℚ
  longitude : Option ℚ
deriving DecidableEq, Repr

/-- JS falsiness of an optional string: absent or empty. -/
def strFalsy (s : Option String) : Bool :=
  match s with
  | none => true
  | some v => v == ""

/-- JS falsiness of an optional number: absent or zero. -/
def numFalsy (x : Option ℚ) : Bool :=
  match x with
  | none => true
  | some v => v == 0

namespace GeographicAnalyzer

/-- Embedding of `GeographicAnalyzer.checkImpossibleTravel` (score
part): skipped when the current coordinates are falsy; fires 0.35 when
the most recent history transaction that carries a country field names a
different (truthy) country less than `impossibleTravelHours` hours
ago. -/
def checkImpossibleTravel (currentLocation : GeoLocation)
    (userHistory : UserTransactionHistory) (nowMs : ℤ) : ℚ :=
  if numFalsy currentLocation.latitude || numFalsy currentLocation.longitude then 0
  else
    match userHistory.transactions.find? (fun tx => tx.country.isSome) with
    | none => 0
    | some recentTx =>
        match recentTx.country, currentLocation.country with
        | some prevCountry, some curCountry =>
            if prevCountry ≠ "" ∧ curCountry ≠ "" ∧ prevCountry ≠ curCountry then
              let hoursDiff : ℚ :=
                ((nowMs - recentTx.timestampMs : ℤ) : ℚ) / (1000 * 60 * 60)
              if hoursDiff < config.impossibleTravelHours then 0.35 else 0
            else 0
        | _, _ => 0

/-- Embedding of `GeographicAnalyzer.checkNewCountry` (score part). -/
def checkNewCountry (currentLocation : GeoLocation)
    (knownCountries : List String) : ℚ :=
  match currentLocation.country with
  | none => 0
  | some c =>
      if c == "" then 0
      else if !(knownCountries.contains c) ∧ 0 < knownCountries.length then 0.15
      else 0

/-- Embedding of `GeographicAnalyzer.checkHighRiskCountry` (score
part). -/
def checkHighRiskCountry (currentLocation : GeoLocation) : ℚ :=
  match currentLocation.country with
  | none => 0
  | some c =>
      if c == "NG" then 0.12
      else if c == "RU" then 0.10
      else if c == "CN" then 0.08
      else if c == "VN" then 0.08
      else if c == "IN" then 0.05
      else if c == "PH" then 0.06
      else if c == "UA" then 0.08
      else if c == "RO" then 0.07
      else 0

/-- The impossible-travel contribution as guarded in `analyze`
(`if (userHistory && userHistory.transactions.length > 0)`). -/
def impossibleTravelScore (currentLocation : GeoLocation)
    (userHistory : Option UserTransactionHistory) (nowMs : ℤ) : ℚ :=
  match userHistory with
  | some h =>
      if h.transactions.length ≠ 0 then
        checkImpossibleTravel currentLocation h nowMs
      else 0
  | none => 0

/-- The pre-cap additive total of `GeographicAnalyzer.analyze`; the VPN
indicator's default implementation contributes no signal. -/
def rawTotal (currentLocation : GeoLocation)
    (userHistory : Option UserTransactionHistory)
    (knownCountries : List String) (nowMs : ℤ) : ℚ :=
  let vpnScore : ℚ := 0
  impossibleTravelScore currentLocation userHistory nowMs +
  checkNewCountry currentLocation knownCountries +
  checkHighRiskCountry currentLocation + vpnScore

/-- Embedding of `GeographicAnalyzer.analyze`: impossible travel (only
when a history with transactions exists), new country, high-risk
country, and the VPN indicator (whose default implementation returns no
signal), capped at 0.50. -/
def analyze (currentLocation : GeoLocation)
    (userHistory : Option UserTransactionHistory)
    (knownCountries : List String) (nowMs : ℤ) : RiskFactor :=
  let totalScore :=
    min (rawTotal currentLocation userHistory knownCountries nowMs) 0.50
  { method := .GEOGRAPHIC, score := totalScore
    weight := config.geographicWeight
    contributedScore := totalScore * config.geographicWeight
    reason := "geographic rules" }

end GeographicAnalyzer

/-! DeviceAnalyzer (src/unnamed/part_003, third document). -/
/-- Parse result of `uaParser.getResult()` on the user-agent string —
the fields the analyzer consults.  `browserMajorVersion` is
`parseInt(result.browser.version.split('.')[0])` when the version is
present (none when absent or NaN). -/
structure ParsedUserAgent where
  browserName : Option String
  browserMajorVersion : Option ℤ
  osName : Option String
deriving DecidableEq, Repr

/-- Cached device info (`DeviceInfo`); only `trustScore` is consulted by
the analyzer. -/
structure DeviceInfoRec where
  trustScore : ℚ
deriving DecidableEq, Repr

/-- Environment of one `DeviceAnalyzer.analyze` call. -/
structure DeviceEnv where
  cacheDeviceBlock : Option BlocklistCacheEntry
  dbDeviceBlockReason : Option String
  cachedDeviceInfo : Option DeviceInfoRec
  parsedUA : ParsedUserAgent
deriving DecidableEq, Repr

/-- Case-sensitive substring test on strings (JS `String#includes`). -/
def strContains (s pat : String) : Bool := (s.splitOn pat).length != 1

namespace DeviceAnalyzer

/-- Embedding of `DeviceAnalyzer.checkBlocklist`: cache hit with an
active entry, else the database row by fingerprint hash. -/
def checkBlocklist (env : DeviceEnv) : Bool :=
  match env.cacheDeviceBlock with
  | some e => if e.isActive then true else env.dbDeviceBlockReason.isSome
  | none => env.dbDeviceBlockReason.isSome

/-- Embedding of `DeviceAnalyzer.checkNewDevice` (score part). -/
def checkNewDevice (deviceFingerprint : Option String)
    (knownDevices : List String) : ℚ :=
  if strFalsy deviceFingerprint then 0
  else
    match deviceFingerprint with
    | none => 0
    | some fp =>
        let isKnown := knownDevices.contains fp
        if !isKnown ∧ 0 < knownDevices.length then 0.12
        else if !isKnown ∧ knownDevices.length = 0 then 0.06
        else 0

/-- Embedding of `DeviceAnalyzer.analyzeUserAgent` (score part): the
first matching rule returns — headless/bot substrings 0.25, very old
Chrome/Firefox 0.08, unusual Linux browser 0.05, minimal user agent
0.15. -/
def analyzeUserAgent (userAgent : String) (p : ParsedUserAgent) : ℚ :=
  let lowerUA := userAgent.toLower
  if (["HeadlessChrome", "PhantomJS", "Selenium", "puppeteer", "playwright",
       "crawl", "bot", "spider"] : List String).any
      (fun pat => strContains lowerUA pat.toLower) then 0.25
  else if (match p.browserMajorVersion with
           | some mj =>
               (p.browserName == some "Chrome" && decide (mj < 70)) ||
               (p.browserName == some "Firefox" && decide (mj < 60))
           | none => false) then 0.08
  else if p.osName == some "Linux" &&
      !(p.browserName == some "Firefox") &&
      !(p.browserName == some "Chrome") then 0.05
  else if userAgent.length < 20 then 0.15
  else 0

/-- Embedding of `DeviceAnalyzer.checkProxyIndicators` (score part). -/
def checkProxyIndicators (userAgent : String) : ℚ :=
  let lowerUA := userAgent.toLower
  if (["proxy", "vpn", "tor", "anonymous"] : List String).any
      (fun pat => strContains lowerUA pat) then 0.10
  else 0

/-- Embedding of `DeviceAnalyzer.checkDevicePattern` (score part). -/
def checkDevicePattern (deviceFingerprint : Option String)
    (knownDevices : List String)
    (userHistory : Option UserTransactionHistory) : ℚ :=
  match userHistory, deviceFingerprint with
  | some h, some fp =>
      if fp ≠ "" ∧ knownDevices.length ≤ 2 ∧
          50 ≤ h.statistics.totalTransactions ∧
          !(knownDevices.contains fp) then 0.10
      else 0
  | _, _ => 0

/-- Embedding of `DeviceAnalyzer.checkFingerprintQuality` (score part):
first matching rule returns. -/
def checkFingerprintQuality (fingerprint : String) : ℚ :=
  if fingerprint.length < 16 then 0.15
  else if fingerprint.toList.dedup.length < 4 then 0.20
  else if (match fingerprint.toList with
           | [] => false
           | c :: rest => rest ≠ [] && rest.all (fun x => x == c)) ||
          fingerprint.toList.all (fun c => c == '0') then 0.25
  else 0

/-- The cached-or-created device info consulted by `analyze` (a created
record has the neutral trustScore 0.5). -/
def deviceInfoOf (env : DeviceEnv) (deviceFingerprint : Option String) :
    Option DeviceInfoRec :=
  if strFalsy deviceFingerprint then none
  else
    match env.cachedDeviceInfo with
    | some di => some di
    | none => some { trustScore := 0.5 }

/-- The trust-score contribution of `analyze`
(`(1 − trustScore)·0.15` when the trust score is below 0.5). -/
def trustContribution (deviceInfo : Option DeviceInfoRec) : ℚ :=
  match deviceInfo with
  | some di => if di.trustScore < 0.5 then (1 - di.trustScore) * 0.15 else 0
  | none => 0

/-- The user-agent analysis contribution of `analyze` (only for a truthy
user agent). -/
def uaContribution (userAgent : Option String) (p : ParsedUserAgent) : ℚ :=
  match userAgent with
  | some ua => if ua ≠ "" then analyzeUserAgent ua p else 0
  | none => 0

/-- The proxy-indicator contribution of `analyze` (only for a truthy
user agent). -/
def proxyContribution (userAgent : Option String) : ℚ :=
  match userAgent with
  | some ua => if ua ≠ "" then checkProxyIndicators ua else 0
  | none => 0

/-- The fingerprint-quality contribution of `analyze` (only for a truthy
fingerprint). -/
def qualityContribution (deviceFingerprint : Option String) : ℚ :=
  match deviceFingerprint with
  | some fp => if fp ≠ "" then checkFingerprintQuality fp else 0
  | none => 0

/-- The pre-cap additive total of the non-blocklist branch of
`DeviceAnalyzer.analyze`. -/
def ruleScore (env : DeviceEnv) (deviceFingerprint userAgent : Option String)
    (knownDevices : List String)
    (userHistory : Option UserTransactionHistory) : ℚ :=
  checkNewDevice deviceFingerprint knownDevices +
  trustContribution (deviceInfoOf env deviceFingerprint) +
  uaContribution userAgent env.parsedUA +
  proxyContribution userAgent +
  checkDevicePattern deviceFingerprint knownDevices userHistory +
  qualityContribution deviceFingerprint

/-- Embedding of `DeviceAnalyzer.analyze`: neutral 0.12 factor when both
fingerprint and user agent are absent; blocklist hard-reject on the
fingerprint; otherwise additive rules capped at 0.40. -/
def analyze (env : DeviceEnv) (deviceFingerprint userAgent : Option String)
    (knownDevices : List String)
    (userHistory : Option UserTransactionHistory) : RiskFactor :=
  if strFalsy deviceFingerprint ∧ strFalsy userAgent then
    { method := .DEVICE, score := 0.12, weight := config.deviceWeight
      contributedScore := 0.12 * config.deviceWeight
      reason := "No device information available" }
  else if !(strFalsy deviceFingerprint) ∧ checkBlocklist env then
    { method := .DEVICE, score := 1.0, weight := config.deviceWeight
      contributedScore := 1.0
      reason := "Device is on fraud blocklist" }
  else
    let totalScore := min (ruleScore env deviceFingerprint userAgent
      knownDevices userHistory) 0.40
    { method := .DEVICE, score := totalScore, weight := config.deviceWeight
      contributedScore := totalScore * config.deviceWeight
      reason := "device rules" }

end DeviceAnalyzer

/-! MLModelService.predict and the orchestrator
(src/src/services/TimeAnalyzer.ts, second document). -/
namespace MLModelService

/-- Embedding of `MLModelService.predict` for the loaded service: the
model slot always holds the rule-based fallback (both branches of
`loadModel` install it), so a successful inference runs
`RuleBasedModel.predict`; an inference error or timeout returns the
neutral (0.5, 0.1). -/
def predict (mlError : Bool) (features : MLFeatures) : ℚ × ℚ :=
  if mlError then (0.5, 0.1)
  else RuleBasedModel.predict (featuresToArray features)

end MLModelService

/-- JS `x || fallback` on a number that may be absent: the fallback when
the value is missing or 0. -/
def numOr (v : Option ℚ) (fallback : ℚ) : ℚ :=
  match v with
  | some x => if x == 0 then fallback else x
  | none => fallback

/-- Embedding of `FraudDetectionService.constructMLFeatures`: the
velocity factor's details feed the count/amount features (`|| 0`
respectively `|| transaction.amount`), the history statistics feed
totalTxCount and avgTxAmount, and the remaining features are the
documented simplified defaults. -/
def constructMLFeatures (amount : ℚ) (txHour txDay : ℕ)
    (riskFactors : List RiskFactor)
    (userHistory : Option UserTransactionHistory) : MLFeatures :=
  let velocityDetails :=
    (riskFactors.find? (fun f => f.method == .VELOCITY)).bind
      (fun f => f.velocityDetails)
  { txCountFiveMin := numOr (velocityDetails.map (fun d => d.transactionsFiveMin)) 0
    txCountOneHour := numOr (velocityDetails.map (fun d => d.transactionsOneHour)) 0
    txCountTwentyFourHours :=
      numOr (velocityDetails.map (fun d => d.transactionsTwentyFourHours)) 0
    amount := amount
    amountFiveMin := numOr (velocityDetails.map (fun d => d.amountFiveMin)) amount
    amountOneHour := numOr (velocityDetails.map (fun d => d.amountOneHour)) amount
    amountTwentyFourHours :=
      numOr (velocityDetails.map (fun d => d.amountTwentyFourHours)) amount
    amountRatioToAvg := 1
    amountRatioToMax := 1
    amountZScore := 0
    isNewCountry := 0
    distanceFromLastTx := 0
    impossibleTravel := 0
    hourOfDay := (txHour : ℚ)
    dayOfWeek := (txDay : ℚ)
    isUnusualHour := 0
    timeSinceLastTx := 0
    isNewRecipient := 0
    recipientRiskScore := 0
    recipientTxCount := 0
    isNewDevice := 0
    deviceTrustScore := 1
    accountAge := 365
    totalTxCount :=
      match userHistory with
      | some h => (h.statistics.totalTransactions : ℚ)
      | none => 0
    avgTxAmount :=
      match userHistory with
      | some h => h.statistics.averageAmount
      | none => 0
    previousFraudFlags := 0 }

/-- The ML risk factor pushed by `processTransaction` step 4: weight
0.30, contributedScore = score·0.30. -/
def mlRiskFactor (mlResult : ℚ × ℚ) : RiskFactor :=
  { method := .ML_MODEL, score := mlResult.1, weight := 0.3
    contributedScore := mlResult.1 * 0.3
    reason := "ML Model risk score" }

/-- Inbound transaction payload (src/types `TransactionCreatedEvent`),
with the optional `geographic` and `device` sub-objects flattened into
optional fields. -/
structure TransactionPayload where
  transactionId : String
  userId : String
  sourceAccountId : String
  destinationAccountId : String
  recipientId : String
  amount : ℚ
  currency : String
  geoIp : Option String
  geoCountry : Option String
  geoCity : Option String
  geoLatitude : Option ℚ
  geoLongitude : Option ℚ
  deviceFingerprint : Option String
  deviceUserAgent : Option String
  deviceId : Option String
deriving DecidableEq, Repr

/-- Environment of one `processTransaction` run: the values the external
collaborators return during this run.  The `fail*` flags model an
analyzer promise rejecting, which `safeAnalyze` maps to `null` (the
factor is dropped); `mlError` models an ML inference error or timeout.
`txHour`/`txDay`/`txMonth`/`txDate` are the JS Date projections of the
event timestamp.  The orchestrator's auxiliary sets (knownDevices,
knownCountries, trustedRecipients) are the empty arrays it hard-codes.
The TS call site of the device analyzer passes an extra `deviceId`
argument that its declared 6-parameter signature does not accept; the
embedding follows the declared signature. -/
structure PipelineEnv where
  userHistory : Option UserTransactionHistory
  recipientEnv : RecipientEnv
  deviceEnv : DeviceEnv
  failAmount : Bool
  failVelocity : Bool
  failDevice : Bool
  failGeographic : Bool
  failRecipient : Bool
  failTime : Bool
  mlError : Bool
  nowMs : ℤ
  txHour : ℕ
  txDay : ℕ
  txMonth : ℕ
  txDate : ℕ
  modelVersion : String
deriving DecidableEq, Repr

/-- Outcome of `processTransaction`: the idempotency early return or a
completed pipeline (both resolve the promise successfully). -/
inductive ProcessOutcome
  | idempotentHit
  | completed
deriving DecidableEq, Repr

/-- Embedding of `FraudDetectionService.processTransaction`: idempotency
check, context load, the six analyzers (rejections dropped, the velocity
analyzer incrementing its counters), ML prediction, aggregation,
persistence, publication, and the idempotency-marker write. -/
def processTransaction (env : PipelineEnv) (s : SysState)
    (tx : TransactionPayload) : SysState × ProcessOutcome :=
  match CacheService.getCachedAnalysis s tx.transactionId with
  | some _ => (s, .idempotentHit)
  | none =>
      let userHistory := env.userHistory
      let preferredHours := TimeAnalyzer.buildPreferredHours userHistory
      let preferredDays := TimeAnalyzer.buildPreferredDays userHistory
      let currentLocation : GeoLocation :=
        { ip := tx.geoIp, country := tx.geoCountry, city := tx.geoCity
          latitude := tx.geoLatitude, longitude := tx.geoLongitude }
      let amountFactor : Option RiskFactor :=
        if env.failAmount then none
        else some (AmountAnalyzer.analyze tx.amount userHistory env.nowMs)
      let velocityRun : Option RiskFactor × SysState :=
        if env.failVelocity then (none, s)
        else
          let r := VelocityAnalyzer.analyze s tx.userId tx.amount
          (some r.1, r.2)
      let s1 := velocityRun.2
      let deviceFactor : Option RiskFactor :=
        if env.failDevice then none
        else some (DeviceAnalyzer.analyze env.deviceEnv tx.deviceFingerprint
          tx.deviceUserAgent [] userHistory)
      let geoFactor : Option RiskFactor :=
        if env.failGeographic then none
        else some (GeographicAnalyzer.analyze currentLocation userHistory [] env.nowMs)
      let recipientFactor : Option RiskFactor :=
        if env.failRecipient then none
        else some (RecipientAnalyzer.analyze env.recipientEnv tx.recipientId
          userHistory [])
      let timeFactor : Option RiskFactor :=
        if env.failTime then none
        else some (TimeAnalyzer.analyze env.txHour env.txDay env.txMonth env.txDate
          userHistory preferredHours preferredDays env.nowMs)
      let ruleFactors : List RiskFactor :=
        [amountFactor, velocityRun.1, deviceFactor, geoFactor,
         recipientFactor, timeFactor].filterMap id
      let mlFeatures := constructMLFeatures tx.amount env.txHour env.txDay
        ruleFactors userHistory
      let mlResult := MLModelService.predict env.mlError mlFeatures
      let riskFactors := ruleFactors ++ [mlRiskFactor mlResult]
      let finalResult := calculateFinalDecision tx.transactionId tx.userId
        riskFactors env.modelVersion
      let savedRow : SavedAnalysis :=
        { transactionId := finalResult.transactionId
          userId := finalResult.userId
          score := finalResult.score
          decision := finalResult.decision
          confidence := finalResult.confidence
          status := finalResult.status
          requiresManualReview := finalResult.requiresManualReview }
      let s2 := { s1 with analyses := s1.analyses ++ [savedRow] }
      let s3 := { s2 with published := s2.published ++ publishResult finalResult }
      let s4 := CacheService.cacheAnalysis s3 tx.transactionId
        { decision := finalResult.decision, score := finalResult.score }
      (s4, .completed)

/-- Sample state with a cached analysis marker for transaction tx-1. -/
def sampleMarkerState : SysState :=
  { markers := [("tx-1", { decision := .APPROVE, score := 0 })]
    velocity := [], analyses := [], published := [] }

/-- Sample pipeline environment: new user, empty caches, no failures. -/
def sampleEnv : PipelineEnv :=
  { userHistory := none
    recipientEnv :=
      { cacheRecipientBlock := none, cacheAccountBlock := none
        dbBlockReason := none, cachedRecipientInfo := none, nowMs := 0 }
    deviceEnv :=
      { cacheDeviceBlock := none, dbDeviceBlockReason := none
        cachedDeviceInfo := none
        parsedUA := { browserName := none, browserMajorVersion := none
                      osName := none } }
    failAmount := false, failVelocity := false, failDevice := false
    failGeographic := false, failRecipient := false, failTime := false
    mlError := false, nowMs := 0
    txHour := 12, txDay := 2, txMonth := 5, txDate := 14
    modelVersion := "rule-based-v1" }

/-- Sample transaction payload with id tx-1. -/
def sampleTx : TransactionPayload :=
  { transactionId := "tx-1", userId := "u-1", sourceAccountId := "a-1"
    destinationAccountId := "a-2", recipientId := "r-1", amount := 100
    currency := "USD", geoIp := none, geoCountry := none, geoCity := none
    geoLatitude := none, geoLongitude := none, deviceFingerprint := none
    deviceUserAgent := none, deviceId := none }

/-- The RiskFactor invariant of the data model: non-negative raw score
and weight, contributedScore equal to their product. -/
def factorInvariant (f : RiskFactor) : Prop :=
  0 ≤ f.score ∧ 0 ≤ f.weight ∧ f.contributedScore = f.score * f.weight

theorem totalContributed_cons (f : RiskFactor) (fs : List RiskFactor) :
    totalContributed (f :: fs) = f.contributedScore + totalContributed fs := by
  have key : ∀ (l : List RiskFactor) (a : ℚ),
      l.foldl (fun acc g => acc + g.contributedScore) a
        = a + l.foldl (fun acc g => acc + g.contributedScore) 0 := by
    intro l
    induction l with
    | nil => intro a; simp
    | cons x xs ih =>
        intro a
        simp only [List.foldl_cons]
        rw [ih (a + x.contributedScore), ih (0 + x.contributedScore)]
        ring
  simp only [totalContributed, List.foldl_cons]
  rw [key fs (0 + f.contributedScore)]
  ring

theorem totalContributed_nonneg (fs : List RiskFactor)
    (h : ∀ f ∈ fs, 0 ≤ f.contributedScore) : 0 ≤ totalContributed fs := by
  induction fs with
  | nil => simp [totalContributed]
  | cons x xs ih =>
      rw [totalContributed_cons]
      have hx : 0 ≤ x.contributedScore := h x (List.mem_cons_self x xs)
      have hxs : 0 ≤ totalContributed xs := by
        apply ih
        intro f hf
        exact h f (List.mem_cons_of_mem x hf)
      linarith

/-- C1: for every processed transaction event, the final risk score equals
min(1, Σ contributedScore of the collected risk factors), and the decision
is the threshold function of that score: score < suspiciousMin gives
APPROVE with requiresManualReview = false; suspiciousMin ≤ score <
rejectMin gives SUSPICIOUS with requiresManualReview = true; score ≥
rejectMin gives REJECT with requiresManualReview = true. -/
theorem C1_final_score_and_threshold_decision
    (tid uid mv : String) (fs : List RiskFactor) :
    (calculateFinalDecision tid uid fs mv).score
        = min 1 (totalContributed fs) ∧
    ((calculateFinalDecision tid uid fs mv).score < config.suspiciousMin →
      (calculateFinalDecision tid uid fs mv).decision = .APPROVE ∧
      (calculateFinalDecision tid uid fs mv).requiresManualReview = false) ∧
    (config.suspiciousMin ≤ (calculateFinalDecision tid uid fs mv).score ∧
        (calculateFinalDecision tid uid fs mv).score < config.rejectMin →
      (calculateFinalDecision tid uid fs mv).decision = .SUSPICIOUS ∧
      (calculateFinalDecision tid uid fs mv).requiresManualReview = true) ∧
    (config.rejectMin ≤ (calculateFinalDecision tid uid fs mv).score →
      (calculateFinalDecision tid uid fs mv).decision = .REJECT ∧
      (calculateFinalDecision tid uid fs mv).requiresManualReview = true) := by
  have hsr : config.suspiciousMin ≤ config.rejectMin := by
    simp only [config.suspiciousMin, config.rejectMin]; norm_num
  simp only [calculateFinalDecision]
  refine ⟨min_comm _ _, ?_, ?_, ?_⟩
  · intro hlt
    have hns : ¬ (config.suspiciousMin ≤ min (totalContributed fs) 1) :=
      not_le_of_lt hlt
    have hnr : ¬ (config.rejectMin ≤ min (totalContributed fs) 1) := by
      intro hr
      exact hns (le_trans hsr hr)
    simp [hns, hnr]
  · rintro ⟨hge, hlt⟩
    have hnr : ¬ (config.rejectMin ≤ min (totalContributed fs) 1) :=
      not_le_of_lt hlt
    simp [hge, hnr]
  · intro hge
    have hs : config.suspiciousMin ≤ min (totalContributed fs) 1 :=
      le_trans hsr hge
    simp [hge, hs]

/-- Witness for C1: a single factor contributing 0.6 falls in the
SUSPICIOUS band and the theorem's second implication fires on it. -/
theorem C1_witness :
    (config.suspiciousMin ≤
        (calculateFinalDecision "tx-1" "user-1"
          [{ method := .AMOUNT, score := 0.6, weight := 1, contributedScore := 0.6,
             reason := "r" }] "m").score ∧
      (calculateFinalDecision "tx-1" "user-1"
          [{ method := .AMOUNT, score := 0.6, weight := 1, contributedScore := 0.6,
             reason := "r" }] "m").score < config.rejectMin) ∧
    (calculateFinalDecision "tx-1" "user-1"
        [{ method := .AMOUNT, score := 0.6, weight := 1, contributedScore := 0.6,
           reason := "r" }] "m").decision = .SUSPICIOUS ∧
    (calculateFinalDecision "tx-1" "user-1"
        [{ method := .AMOUNT, score := 0.6, weight := 1, contributedScore := 0.6,
           reason := "r" }] "m").requiresManualReview = true := by
  have h := C1_final_score_and_threshold_decision "tx-1" "user-1" "m"
    [{ method := .AMOUNT, score := 0.6, weight := 1, contributedScore := 0.6,
       reason := "r" }]
  have hband : config.suspiciousMin ≤
      (calculateFinalDecision "tx-1" "user-1"
        [{ method := .AMOUNT, score := 0.6, weight := 1, contributedScore := 0.6,
           reason := "r" }] "m").score ∧
      (calculateFinalDecision "tx-1" "user-1"
        [{ method := .AMOUNT, score := 0.6, weight := 1, contributedScore := 0.6,
           reason := "r" }] "m").score < config.rejectMin := by
    constructor <;> · simp [calculateFinalDecision, totalContributed,
      config.suspiciousMin, config.rejectMin]; norm_num
  exact ⟨hband, h.2.2.1 hband⟩

/-- C2: when the recipientId or destinationAccountId matches an active
blocklist entry, the recipient analyzer returns a risk factor with
rawScore 1.0 and contributedScore 1.0, and the pipeline's final decision
is REJECT, whatever non-negative contributions the remaining (possibly
failed and therefore dropped) analyzers add. -/
theorem C2_blocklist_forces_reject
    (env : RecipientEnv) (rid : String)
    (hist : Option UserTransactionHistory) (trusted : List String)
    (hhit : RecipientAnalyzer.checkBlocklist env = true)
    (others : List RiskFactor)
    (hothers : ∀ g ∈ others, 0 ≤ g.contributedScore)
    (tid uid mv : String) :
    (RecipientAnalyzer.analyze env rid hist trusted).score = 1 ∧
    (RecipientAnalyzer.analyze env rid hist trusted).contributedScore = 1 ∧
    (calculateFinalDecision tid uid
        (RecipientAnalyzer.analyze env rid hist trusted :: others) mv).decision
      = .REJECT := by
  have hfac : RecipientAnalyzer.analyze env rid hist trusted =
      { method := .RECIPIENT, score := 1.0, weight := config.recipientWeight
        contributedScore := 1.0, reason := "Recipient is on fraud blocklist" } := by
    simp [RecipientAnalyzer.analyze, hhit]
  refine ⟨by rw [hfac]; norm_num, by rw [hfac]; norm_num, ?_⟩
  have hsum : totalContributed
      (RecipientAnalyzer.analyze env rid hist trusted :: others)
        = 1 + totalContributed others := by
    rw [totalContributed_cons, hfac]
    norm_num
  have hrest : 0 ≤ totalContributed others := totalContributed_nonneg others hothers
  have hmin : min (totalContributed
      (RecipientAnalyzer.analyze env rid hist trusted :: others)) 1 = 1 := by
    rw [hsum, min_eq_right]
    linarith
  simp only [calculateFinalDecision, hmin]
  have : config.rejectMin ≤ (1 : ℚ) := by
    simp only [config.rejectMin]; norm_num
  simp [this]

/-- Witness for C2: a cache hit on the recipient with an active entry and
no other factors yields the hard-reject factor and a REJECT decision. -/
theorem C2_witness :
    RecipientAnalyzer.checkBlocklist
        { cacheRecipientBlock := some { isActive := true, reason := "mule" }
          cacheAccountBlock := none, dbBlockReason := none
          cachedRecipientInfo := none, nowMs := 0 } = true ∧
    (RecipientAnalyzer.analyze
        { cacheRecipientBlock := some { isActive := true, reason := "mule" }
          cacheAccountBlock := none, dbBlockReason := none
          cachedRecipientInfo := none, nowMs := 0 } "r-9" none []).score = 1 ∧
    (RecipientAnalyzer.analyze
        { cacheRecipientBlock := some { isActive := true, reason := "mule" }
          cacheAccountBlock := none, dbBlockReason := none
          cachedRecipientInfo := none, nowMs := 0 } "r-9" none []).contributedScore = 1 ∧
    (calculateFinalDecision "t-9" "u-9"
        [RecipientAnalyzer.analyze
          { cacheRecipientBlock := some { isActive := true, reason := "mule" }
            cacheAccountBlock := none, dbBlockReason := none
            cachedRecipientInfo := none, nowMs := 0 } "r-9" none []] "m").decision
      = .REJECT := by
  have hhit : RecipientAnalyzer.checkBlocklist
      { cacheRecipientBlock := some { isActive := true, reason := "mule" }
        cacheAccountBlock := none, dbBlockReason := none
        cachedRecipientInfo := none, nowMs := 0 } = true := by decide
  have h := C2_blocklist_forces_reject
    { cacheRecipientBlock := some { isActive := true, reason := "mule" }
      cacheAccountBlock := none, dbBlockReason := none
      cachedRecipientInfo := none, nowMs := 0 } "r-9" none [] hhit []
    (by intro g hg; cases hg) "t-9" "u-9" "m"
  exact ⟨hhit, h.1, h.2.1, h.2.2⟩

/-- C3 counterexample: a blocklist-triggered REJECT (the recipient
analyzer's hard-reject factor) publishes a single FraudSuspected event;
no emitted event carries eventType BlocklistMatch, contrary to the
claim's REJECT clause (`EventPublisher.publishBlocklistMatch` exists but
is never invoked by the pipeline). -/
theorem C3_counterexample :
    (calculateFinalDecision "t-3" "u-3"
        [RecipientAnalyzer.analyze
          { cacheRecipientBlock := some { isActive := true, reason := "mule" }
            cacheAccountBlock := none, dbBlockReason := none
            cachedRecipientInfo := none, nowMs := 0 } "r-3" none []] "m").decision
      = .REJECT ∧
    publishResult (calculateFinalDecision "t-3" "u-3"
        [RecipientAnalyzer.analyze
          { cacheRecipientBlock := some { isActive := true, reason := "mule" }
            cacheAccountBlock := none, dbBlockReason := none
            cachedRecipientInfo := none, nowMs := 0 } "r-3" none []] "m")
      = [{ topic := .fraudSuspected, eventType := .FraudSuspected, key := "t-3" }] ∧
    ¬ ∃ e ∈ publishResult (calculateFinalDecision "t-3" "u-3"
        [RecipientAnalyzer.analyze
          { cacheRecipientBlock := some { isActive := true, reason := "mule" }
            cacheAccountBlock := none, dbBlockReason := none
            cachedRecipientInfo := none, nowMs := 0 } "r-3" none []] "m"),
      e.eventType = .BlocklistMatch := by
  have hhit : RecipientAnalyzer.checkBlocklist
      { cacheRecipientBlock := some { isActive := true, reason := "mule" }
        cacheAccountBlock := none, dbBlockReason := none
        cachedRecipientInfo := none, nowMs := 0 } = true := by decide
  have hfac : RecipientAnalyzer.analyze
      { cacheRecipientBlock := some { isActive := true, reason := "mule" }
        cacheAccountBlock := none, dbBlockReason := none
        cachedRecipientInfo := none, nowMs := 0 } "r-3" none [] =
      { method := .RECIPIENT, score := 1.0, weight := config.recipientWeight
        contributedScore := 1.0, reason := "Recipient is on fraud blocklist" } := by
    simp [RecipientAnalyzer.analyze, hhit]
  rw [hfac]
  norm_num [calculateFinalDecision, totalContributed, publishResult,
    config.rejectMin, config.suspiciousMin]
  decide

/-- C3 amended: the outbound events match the decision — APPROVE
publishes exactly one FraudAnalysisComplete on fraudAnalysis; SUSPICIOUS
publishes FraudSuspected on fraudSuspected plus ManualReviewRequired on
fraudManualReview with priority HIGH when score > 0.8 and MEDIUM
otherwise; REJECT publishes exactly one FraudSuspected on fraudSuspected
(also for blocklist triggers); the eventType BlocklistMatch is never
emitted. -/
theorem C3_events_match_decision (tid uid mv : String) (fs : List RiskFactor) :
    ((calculateFinalDecision tid uid fs mv).decision = .APPROVE →
      publishResult (calculateFinalDecision tid uid fs mv) =
        [{ topic := .fraudAnalysis, eventType := .FraudAnalysisComplete, key := tid }]) ∧
    ((calculateFinalDecision tid uid fs mv).decision = .SUSPICIOUS →
      publishResult (calculateFinalDecision tid uid fs mv) =
        [{ topic := .fraudSuspected, eventType := .FraudSuspected, key := tid },
         { topic := .fraudManualReview, eventType := .ManualReviewRequired, key := tid
           priority := some (if 0.8 < (calculateFinalDecision tid uid fs mv).score
             then .HIGH else .MEDIUM) }]) ∧
    ((calculateFinalDecision tid uid fs mv).decision = .REJECT →
      publishResult (calculateFinalDecision tid uid fs mv) =
        [{ topic := .fraudSuspected, eventType := .FraudSuspected, key := tid }]) ∧
    (∀ e ∈ publishResult (calculateFinalDecision tid uid fs mv),
      e.eventType ≠ .BlocklistMatch) := by
  by_cases hr : config.rejectMin ≤ min (totalContributed fs) 1
  · simp [calculateFinalDecision, publishResult, hr]
  · by_cases hs : config.suspiciousMin ≤ min (totalContributed fs) 1
    · simp [calculateFinalDecision, publishResult, hr, hs]
    · simp [calculateFinalDecision, publishResult, hr, hs]

/-- Witness for C3: a single 0.6 contribution lands in the SUSPICIOUS band
and the amended theorem's SUSPICIOUS clause yields the two-event
publication with MEDIUM priority. -/
theorem C3_witness :
    publishResult (calculateFinalDecision "t-4" "u-4"
        [{ method := .AMOUNT, score := 0.6, weight := 1, contributedScore := 0.6,
           reason := "r" }] "m") =
      [{ topic := .fraudSuspected, eventType := .FraudSuspected, key := "t-4" },
       { topic := .fraudManualReview, eventType := .ManualReviewRequired, key := "t-4"
         priority := some (if 0.8 < (calculateFinalDecision "t-4" "u-4"
             [{ method := .AMOUNT, score := 0.6, weight := 1, contributedScore := 0.6,
                reason := "r" }] "m").score
           then .HIGH else .MEDIUM) }] := by
  have h := C3_events_match_decision "t-4" "u-4" "m"
    [{ method := .AMOUNT, score := 0.6, weight := 1, contributedScore := 0.6,
       reason := "r" }]
  exact h.2.1 (by
    norm_num [calculateFinalDecision, totalContributed,
      config.rejectMin, config.suspiciousMin])

/-- C6 counterexample: on a factor list with no ML factor at all (and no
non-zero rule factors) the claim requires confidence LOW, but
`calculateFinalDecision` reports HIGH: the `confidence` field is the
constant `'HIGH'`. -/
theorem C6_counterexample :
    (([] : List RiskFactor).all (fun f => !(f.method == Method.ML_MODEL)) = true) ∧
    (calculateFinalDecision "t-6" "u-6" [] "m").confidence = .HIGH := by
  exact ⟨rfl, by simp [calculateFinalDecision]⟩

/-- C6 amended: the reported confidence is the constant HIGH, regardless
of the ML factor's presence or confidence and of how many rule-based
factors are non-zero. -/
theorem C6_confidence_always_high (tid uid mv : String) (fs : List RiskFactor) :
    (calculateFinalDecision tid uid fs mv).confidence = .HIGH := by
  simp [calculateFinalDecision]

/-- C8 counterexample: a user with 4 historical transactions (fewer than
5) and historical max 100 still receives the exceeds-historical-max
contribution 0.15 on an amount of 300, because `checkExceedsMax` only
skips below 3 transactions. -/
theorem C8_counterexample :
    ({ totalTransactions := 4, averageAmount := 50, maxAmount := 100
       minAmount := 10, standardDeviation := 0
       accountCreatedAtMs := 0 } : HistoryStats).totalTransactions < 5 ∧
    AmountAnalyzer.checkExceedsMax 300
      { totalTransactions := 4, averageAmount := 50, maxAmount := 100
        minAmount := 10, standardDeviation := 0
        accountCreatedAtMs := 0 } = 0.15 := by
  constructor
  · norm_num
  · norm_num [AmountAnalyzer.checkExceedsMax]

/-- C8 amended: the ratio-to-average rule contributes 0 when the user has
fewer than 5 transactions or a zero average; the z-score rule contributes
0 when the standard deviation is 0; the exceeds-historical-max rule,
however, only skips below 3 transactions (or zero historical max) — so it
contributes 0 under that weaker guard, and can fire for a user with 3 or
4 transactions. -/
theorem C8_insufficient_history_skips_rules (amount : ℚ) (stats : HistoryStats) :
    (stats.totalTransactions < 5 ∨ stats.averageAmount = 0 →
      AmountAnalyzer.checkUnusualAmount amount stats = 0) ∧
    (stats.standardDeviation = 0 →
      AmountAnalyzer.zScoreContribution amount stats = 0) ∧
    (stats.totalTransactions < 3 ∨ stats.maxAmount = 0 →
      AmountAnalyzer.checkExceedsMax amount stats = 0) := by
  refine ⟨?_, ?_, ?_⟩
  · intro h
    simp [AmountAnalyzer.checkUnusualAmount, h]
  · intro h
    simp [AmountAnalyzer.zScoreContribution, h]
  · intro h
    simp [AmountAnalyzer.checkExceedsMax, h]

/-- Witness for C8: a 2-transaction history skips all three
history-dependent rules on an amount of 300. -/
theorem C8_witness :
    AmountAnalyzer.checkUnusualAmount 300
      { totalTransactions := 2, averageAmount := 50, maxAmount := 100
        minAmount := 10, standardDeviation := 0, accountCreatedAtMs := 0 } = 0 ∧
    AmountAnalyzer.zScoreContribution 300
      { totalTransactions := 2, averageAmount := 50, maxAmount := 100
        minAmount := 10, standardDeviation := 0, accountCreatedAtMs := 0 } = 0 ∧
    AmountAnalyzer.checkExceedsMax 300
      { totalTransactions := 2, averageAmount := 50, maxAmount := 100
        minAmount := 10, standardDeviation := 0, accountCreatedAtMs := 0 } = 0 := by
  have h := C8_insufficient_history_skips_rules 300
    { totalTransactions := 2, averageAmount := 50, maxAmount := 100
      minAmount := 10, standardDeviation := 0, accountCreatedAtMs := 0 }
  exact ⟨h.1 (Or.inl (by norm_num)), h.2.1 (by norm_num),
    h.2.2 (Or.inl (by norm_num))⟩

/-- C7: the code diverges from the claimed rule set at concrete feature
vectors.  A vector whose only set feature is isNewRecipient scores 0
under the code (the claim requires 0.10), while a vector whose only set
feature is isUnusualHour scores 0.10 under the code (the claim requires
0): `RuleBasedModel.predict` reads the wrong vector indices for the
recipient, device and fraud-flag features.  Confidence is 0.7 as
claimed. -/
theorem C7_rule_based_model_reads_wrong_indices :
    (RuleBasedModel.predict (featuresToArray mlFeaturesNewRecipientOnly)).1 = 0 ∧
    ruleBasedScoreSpec mlFeaturesNewRecipientOnly = 0.10 ∧
    (RuleBasedModel.predict (featuresToArray mlFeaturesUnusualHourOnly)).1 = 0.10 ∧
    ruleBasedScoreSpec mlFeaturesUnusualHourOnly = 0 ∧
    (RuleBasedModel.predict (featuresToArray mlFeaturesNewRecipientOnly)).2 = 0.7 := by
  refine ⟨?_, ?_, ?_, ?_, ?_⟩ <;>
    norm_num [RuleBasedModel.predict, RuleBasedModel.rawScore,
      ruleBasedScoreSpec, featuresToArray,
      mlFeaturesNewRecipientOnly, mlFeaturesUnusualHourOnly, List.getD]

/-- C9: a malformed message (parse failure) or one whose payload fails
validation is skipped with a warning — the pipeline handler is not
invoked and nothing is thrown (the outcome is never `errored`), so the
event is not re-queued. -/
theorem C9_invalid_events_skipped_without_retry
    (parsed : Option LooseEvent) (handlerFails : Bool)
    (hbad : parsed = none ∨
      ∃ e, parsed = some e ∧ EventConsumer.validateEvent e = false) :
    EventConsumer.handleMessage parsed handlerFails =
      (.skippedWarning, false) := by
  rcases hbad with hnone | ⟨e, he, hval⟩
  · rw [hnone]
    rfl
  · rw [he]
    simp [EventConsumer.handleMessage, hval]

/-- Witness for C9: a payload with a non-positive amount is skipped and
the handler is not invoked, even when the handler would fail. -/
theorem C9_witness :
    EventConsumer.handleMessage
      (some { payload := some { transactionId := some "t-9", userId := some "u-9"
                                amount := some (-5), recipientId := some "r-9" } })
      true = (.skippedWarning, false) := by
  apply C9_invalid_events_skipped_without_retry
  refine Or.inr ⟨_, rfl, ?_⟩
  decide

theorem checkUnusualAmount_nonneg (a : ℚ) (st : HistoryStats) :
    0 ≤ AmountAnalyzer.checkUnusualAmount a st := by
  simp only [AmountAnalyzer.checkUnusualAmount]
  repeat' split
  all_goals norm_num

theorem checkExceedsMax_nonneg (a : ℚ) (st : HistoryStats) :
    0 ≤ AmountAnalyzer.checkExceedsMax a st := by
  simp only [AmountAnalyzer.checkExceedsMax]
  repeat' split
  all_goals norm_num

theorem checkAbsoluteLarge_nonneg (a : ℚ) :
    0 ≤ AmountAnalyzer.checkAbsoluteLarge a := by
  simp only [AmountAnalyzer.checkAbsoluteLarge]
  repeat' split
  all_goals norm_num

theorem checkRoundNumber_nonneg (a : ℚ) :
    0 ≤ AmountAnalyzer.checkRoundNumber a := by
  simp only [AmountAnalyzer.checkRoundNumber]
  repeat' split
  all_goals norm_num

theorem checkBelowReportingThreshold_nonneg (a : ℚ) :
    0 ≤ AmountAnalyzer.checkBelowReportingThreshold a := by
  simp only [AmountAnalyzer.checkBelowReportingThreshold]
  repeat' split
  all_goals norm_num

theorem zScoreContribution_nonneg (a : ℚ) (st : HistoryStats) :
    0 ≤ AmountAnalyzer.zScoreContribution a st := by
  simp only [AmountAnalyzer.zScoreContribution, AmountAnalyzer.checkZScore]
  repeat' split
  all_goals norm_num

theorem newAccountLarge_nonneg (a : ℚ) (st : HistoryStats) (now : ℤ) :
    0 ≤ AmountAnalyzer.newAccountLarge a st now := by
  simp only [AmountAnalyzer.newAccountLarge]
  split_ifs <;> norm_num

theorem amountRawTotal_nonneg (a : ℚ) (st : HistoryStats) (now : ℤ) :
    0 ≤ AmountAnalyzer.rawTotal a st now := by
  have h1 := checkUnusualAmount_nonneg a st
  have h2 := checkExceedsMax_nonneg a st
  have h3 := checkAbsoluteLarge_nonneg a
  have h4 := checkRoundNumber_nonneg a
  have h5 := checkBelowReportingThreshold_nonneg a
  have h6 := zScoreContribution_nonneg a st
  have h7 := newAccountLarge_nonneg a st now
  simp only [AmountAnalyzer.rawTotal]
  linarith

theorem amount_factor_invariant (a : ℚ) (h : Option UserTransactionHistory)
    (nowMs : ℤ) : factorInvariant (AmountAnalyzer.analyze a h nowMs) := by
  refine ⟨?_, ?_, rfl⟩
  · show (0:ℚ) ≤
      min (AmountAnalyzer.rawTotal a (AmountAnalyzer.statsOf h nowMs) nowMs) 0.40
    exact le_min_iff.mpr ⟨amountRawTotal_nonneg _ _ _, by norm_num⟩
  · show (0:ℚ) ≤ config.amountWeight
    norm_num [config.amountWeight]

theorem windowScore_nonneg (o : ℕ) (t w : ℚ) (ht : 0 < t) (hw : 0 ≤ w) :
    0 ≤ VelocityAnalyzer.windowScore o t w := by
  simp only [VelocityAnalyzer.windowScore]
  split_ifs
  · exact mul_nonneg hw
      (le_min_iff.mpr ⟨div_nonneg (Nat.cast_nonneg o) (le_of_lt ht), by norm_num⟩)
  · norm_num

theorem amountSpikeScore_nonneg (five day : ℕ × ℚ) (amt : ℚ) :
    0 ≤ VelocityAnalyzer.amountSpikeScore five day amt := by
  simp only [VelocityAnalyzer.amountSpikeScore]
  repeat' split
  all_goals norm_num

theorem rapidDiverseScore_nonneg (five : ℕ × ℚ) :
    0 ≤ VelocityAnalyzer.rapidDiverseScore five := by
  simp only [VelocityAnalyzer.rapidDiverseScore]
  split_ifs <;> norm_num

theorem velocityRawScore_nonneg (five hour day : ℕ × ℚ) (amt : ℚ) :
    0 ≤ VelocityAnalyzer.rawScore five hour day amt := by
  have h1 := windowScore_nonneg five.1 config.maxTransfersPerFiveMin
    config.velocityWeightFiveMinute
    (by norm_num [config.maxTransfersPerFiveMin])
    (by norm_num [config.velocityWeightFiveMinute])
  have h2 := windowScore_nonneg hour.1 config.maxTransfersPerHour
    config.velocityWeightOneHour
    (by norm_num [config.maxTransfersPerHour])
    (by norm_num [config.velocityWeightOneHour])
  have h3 := windowScore_nonneg day.1 config.maxTransfersPerDay
    config.velocityWeightTwentyFourHours
    (by norm_num [config.maxTransfersPerDay])
    (by norm_num [config.velocityWeightTwentyFourHours])
  have h4 := amountSpikeScore_nonneg five day amt
  have h5 := rapidDiverseScore_nonneg five
  simp only [VelocityAnalyzer.rawScore]
  linarith

theorem velocity_factor_invariant (s : SysState) (uid : String) (amt : ℚ) :
    factorInvariant (VelocityAnalyzer.analyze s uid amt).1 := by
  refine ⟨?_, ?_, ?_⟩
  · show (0:ℚ) ≤ min (VelocityAnalyzer.rawScore
        (CacheService.getVelocity s uid .fiveMin)
        (CacheService.getVelocity s uid .oneHour)
        (CacheService.getVelocity s uid .twentyFourHours) amt) 0.45
    exact le_min_iff.mpr ⟨velocityRawScore_nonneg _ _ _ _, by norm_num⟩
  · show (0:ℚ) ≤ 1.0
    norm_num
  · have h1 : (VelocityAnalyzer.analyze s uid amt).1.contributedScore
        = (VelocityAnalyzer.analyze s uid amt).1.score := rfl
    have h2 : (VelocityAnalyzer.analyze s uid amt).1.weight = 1.0 := rfl
    rw [h1, h2]
    norm_num

theorem checkUnusualHour_nonneg (hr : ℕ) (ph : List ℕ) :
    0 ≤ TimeAnalyzer.checkUnusualHour hr ph := by
  simp only [TimeAnalyzer.checkUnusualHour]
  repeat' split
  all_goals norm_num

theorem checkUnusualDay_nonneg (d : ℕ) (pd : List ℕ) :
    0 ≤ TimeAnalyzer.checkUnusualDay d pd := by
  simp only [TimeAnalyzer.checkUnusualDay]
  repeat' split
  all_goals norm_num

theorem checkLateNight_nonneg (hr : ℕ) : 0 ≤ TimeAnalyzer.checkLateNight hr := by
  simp only [TimeAnalyzer.checkLateNight]
  repeat' split
  all_goals norm_num

theorem checkWeekendPattern_nonneg (d : ℕ) (h : Option UserTransactionHistory) :
    0 ≤ TimeAnalyzer.checkWeekendPattern d h := by
  simp only [TimeAnalyzer.checkWeekendPattern]
  repeat' split
  all_goals norm_num

theorem checkHoliday_nonneg (m d : ℕ) : 0 ≤ TimeAnalyzer.checkHoliday m d := by
  simp only [TimeAnalyzer.checkHoliday]
  repeat' split
  all_goals norm_num

theorem checkActivityBurst_nonneg (hr : ℕ) (h : Option UserTransactionHistory)
    (now : ℤ) : 0 ≤ TimeAnalyzer.checkActivityBurst hr h now := by
  simp only [TimeAnalyzer.checkActivityBurst]
  repeat' split
  all_goals norm_num

theorem timeRawTotal_nonneg (hr d m dt : ℕ)
    (h : Option UserTransactionHistory) (ph pd : List ℕ) (now : ℤ) :
    0 ≤ TimeAnalyzer.rawTotal hr d m dt h ph pd now := by
  have h1 := checkUnusualHour_nonneg hr ph
  have h2 := checkUnusualDay_nonneg d pd
  have h3 := checkLateNight_nonneg hr
  have h4 := checkWeekendPattern_nonneg d h
  have h5 := checkHoliday_nonneg m dt
  have h6 := checkActivityBurst_nonneg hr h now
  simp only [TimeAnalyzer.rawTotal]
  linarith

theorem time_factor_invariant (hr d m dt : ℕ)
    (h : Option UserTransactionHistory) (ph pd : List ℕ) (now : ℤ) :
    factorInvariant (TimeAnalyzer.analyze hr d m dt h ph pd now) := by
  refine ⟨?_, ?_, rfl⟩
  · show (0:ℚ) ≤ min (TimeAnalyzer.rawTotal hr d m dt h ph pd now) 0.25
    exact le_min_iff.mpr ⟨timeRawTotal_nonneg hr d m dt h ph pd now, by norm_num⟩
  · show (0:ℚ) ≤ config.timeWeight
    norm_num [config.timeWeight]

theorem checkImpossibleTravel_nonneg (loc : GeoLocation)
    (h : UserTransactionHistory) (now : ℤ) :
    0 ≤ GeographicAnalyzer.checkImpossibleTravel loc h now := by
  simp only [GeographicAnalyzer.checkImpossibleTravel]
  repeat' split
  all_goals norm_num

theorem impossibleTravelScore_nonneg (loc : GeoLocation)
    (h : Option UserTransactionHistory) (now : ℤ) :
    0 ≤ GeographicAnalyzer.impossibleTravelScore loc h now := by
  simp only [GeographicAnalyzer.impossibleTravelScore]
  repeat' split
  all_goals first
    | apply checkImpossibleTravel_nonneg
    | norm_num

theorem checkNewCountry_nonneg (loc : GeoLocation) (kc : List String) :
    0 ≤ GeographicAnalyzer.checkNewCountry loc kc := by
  simp only [GeographicAnalyzer.checkNewCountry]
  repeat' split
  all_goals norm_num

theorem checkHighRiskCountry_nonneg (loc : GeoLocation) :
    0 ≤ GeographicAnalyzer.checkHighRiskCountry loc := by
  simp only [GeographicAnalyzer.checkHighRiskCountry]
  repeat' split
  all_goals norm_num

theorem geoRawTotal_nonneg (loc : GeoLocation)
    (h : Option UserTransactionHistory) (kc : List String) (now : ℤ) :
    0 ≤ GeographicAnalyzer.rawTotal loc h kc now := by
  have h1 := impossibleTravelScore_nonneg loc h now
  have h2 := checkNewCountry_nonneg loc kc
  have h3 := checkHighRiskCountry_nonneg loc
  simp only [GeographicAnalyzer.rawTotal]
  linarith

theorem geographic_factor_invariant (loc : GeoLocation)
    (h : Option UserTransactionHistory) (kc : List String) (now : ℤ) :
    factorInvariant (GeographicAnalyzer.analyze loc h kc now) := by
  refine ⟨?_, ?_, rfl⟩
  · show (0:ℚ) ≤ min (GeographicAnalyzer.rawTotal loc h kc now) 0.50
    exact le_min_iff.mpr ⟨geoRawTotal_nonneg loc h kc now, by norm_num⟩
  · show (0:ℚ) ≤ config.geographicWeight
    norm_num [config.geographicWeight]

theorem mlRawScore_nonneg (features : List ℚ) :
    0 ≤ RuleBasedModel.rawScore features := by
  simp only [RuleBasedModel.rawScore]
  have h7 : (0:ℚ) ≤
      (if 0 < features.getD 23 0 then 0.15 * min (features.getD 23 0) 3 else 0) := by
    split_ifs with hp
    · exact mul_nonneg (by norm_num) (le_min_iff.mpr ⟨le_of_lt hp, by norm_num⟩)
    · norm_num
  repeat' apply add_nonneg
  all_goals first
    | exact h7
    | (split_ifs <;> norm_num)

theorem ruleBasedPredict_fst_nonneg (features : List ℚ) :
    0 ≤ (RuleBasedModel.predict features).1 := by
  show (0:ℚ) ≤ min (RuleBasedModel.rawScore features) 0.95
  exact le_min_iff.mpr ⟨mlRawScore_nonneg features, by norm_num⟩

theorem mlPredict_fst_nonneg (e : Bool) (f : MLFeatures) :
    0 ≤ (MLModelService.predict e f).1 := by
  simp only [MLModelService.predict]
  split
  · norm_num
  · apply ruleBasedPredict_fst_nonneg

theorem ml_factor_invariant (e : Bool) (f : MLFeatures) :
    factorInvariant (mlRiskFactor (MLModelService.predict e f)) :=
  ⟨mlPredict_fst_nonneg e f, by norm_num [mlRiskFactor], rfl⟩

theorem checkNewRecipient_snd_nonneg (rid : String) (info : Option RecipientInfo)
    (trusted : List String) (now : ℤ) :
    0 ≤ (RecipientAnalyzer.checkNewRecipient rid info trusted now).2 := by
  simp only [RecipientAnalyzer.checkNewRecipient]
  repeat' split
  all_goals norm_num

theorem riskScoreContribution_nonneg (info : Option RecipientInfo) :
    0 ≤ RecipientAnalyzer.riskScoreContribution info := by
  simp only [RecipientAnalyzer.riskScoreContribution]
  repeat' split
  all_goals linarith

theorem accountAgeContribution_nonneg (info : Option RecipientInfo) :
    0 ≤ RecipientAnalyzer.accountAgeContribution info := by
  simp only [RecipientAnalyzer.accountAgeContribution]
  repeat' split
  all_goals norm_num

theorem countryContribution_nonneg (info : Option RecipientInfo) :
    0 ≤ RecipientAnalyzer.countryContribution info := by
  simp only [RecipientAnalyzer.countryContribution]
  repeat' split
  all_goals norm_num

theorem verifiedContribution_nonneg (info : Option RecipientInfo) :
    0 ≤ RecipientAnalyzer.verifiedContribution info := by
  simp only [RecipientAnalyzer.verifiedContribution]
  repeat' split
  all_goals norm_num

theorem burstContribution_nonneg (b : Bool)
    (h : Option UserTransactionHistory) (now : ℤ) :
    0 ≤ RecipientAnalyzer.burstContribution b h now := by
  simp only [RecipientAnalyzer.burstContribution]
  repeat' split
  all_goals norm_num

theorem recipientRuleScore_nonneg (env : RecipientEnv) (rid : String)
    (h : Option UserTransactionHistory) (trusted : List String) :
    0 ≤ RecipientAnalyzer.ruleScore env rid h trusted := by
  have hn : (0:ℚ) ≤
      (if (RecipientAnalyzer.checkNewRecipient rid
            (RecipientAnalyzer.recipientInfoOf env rid h) trusted env.nowMs).1
        then (RecipientAnalyzer.checkNewRecipient rid
            (RecipientAnalyzer.recipientInfoOf env rid h) trusted env.nowMs).2
        else 0) := by
    split_ifs
    · apply checkNewRecipient_snd_nonneg
    · norm_num
  have h2 := riskScoreContribution_nonneg
    (RecipientAnalyzer.recipientInfoOf env rid h)
  have h3 := accountAgeContribution_nonneg
    (RecipientAnalyzer.recipientInfoOf env rid h)
  have h4 := countryContribution_nonneg
    (RecipientAnalyzer.recipientInfoOf env rid h)
  have h5 := verifiedContribution_nonneg
    (RecipientAnalyzer.recipientInfoOf env rid h)
  have h6 := burstContribution_nonneg
    (RecipientAnalyzer.checkNewRecipient rid
      (RecipientAnalyzer.recipientInfoOf env rid h) trusted env.nowMs).1 h env.nowMs
  simp only [RecipientAnalyzer.ruleScore]
  linarith

theorem recipient_factor_invariant (env : RecipientEnv) (rid : String)
    (h : Option UserTransactionHistory) (trusted : List String) :
    0 ≤ (RecipientAnalyzer.analyze env rid h trusted).score ∧
    0 ≤ (RecipientAnalyzer.analyze env rid h trusted).weight ∧
    ((RecipientAnalyzer.analyze env rid h trusted).contributedScore =
        (RecipientAnalyzer.analyze env rid h trusted).score *
          (RecipientAnalyzer.analyze env rid h trusted).weight ∨
      ((RecipientAnalyzer.analyze env rid h trusted).score = 1 ∧
       (RecipientAnalyzer.analyze env rid h trusted).contributedScore = 1)) := by
  by_cases hhit : RecipientAnalyzer.checkBlocklist env = true
  · have hfac : RecipientAnalyzer.analyze env rid h trusted =
        { method := .RECIPIENT, score := 1.0, weight := config.recipientWeight
          contributedScore := 1.0
          reason := "Recipient is on fraud blocklist" } := by
      simp only [RecipientAnalyzer.analyze, if_pos hhit]
    rw [hfac]
    exact ⟨by norm_num, by norm_num [config.recipientWeight],
      Or.inr ⟨by norm_num, by norm_num⟩⟩
  · have hfac : RecipientAnalyzer.analyze env rid h trusted =
        { method := .RECIPIENT
          score := min (RecipientAnalyzer.ruleScore env rid h trusted) 0.45
          weight := config.recipientWeight
          contributedScore :=
            min (RecipientAnalyzer.ruleScore env rid h trusted) 0.45 *
              config.recipientWeight
          reason := "recipient rules" } := by
      simp only [RecipientAnalyzer.analyze, if_neg hhit]
    rw [hfac]
    exact ⟨le_min_iff.mpr ⟨recipientRuleScore_nonneg env rid h trusted, by norm_num⟩,
      by norm_num [config.recipientWeight], Or.inl rfl⟩

theorem checkNewDevice_nonneg (fp : Option String) (kd : List String) :
    0 ≤ DeviceAnalyzer.checkNewDevice fp kd := by
  simp only [DeviceAnalyzer.checkNewDevice]
  repeat' split
  all_goals norm_num

theorem trustContribution_nonneg (di : Option DeviceInfoRec) :
    0 ≤ DeviceAnalyzer.trustContribution di := by
  simp only [DeviceAnalyzer.trustContribution]
  repeat' split
  all_goals linarith

theorem analyzeUserAgent_nonneg (ua : String) (p : ParsedUserAgent) :
    0 ≤ DeviceAnalyzer.analyzeUserAgent ua p := by
  simp only [DeviceAnalyzer.analyzeUserAgent]
  repeat' split
  all_goals norm_num

theorem uaContribution_nonneg (ua : Option String) (p : ParsedUserAgent) :
    0 ≤ DeviceAnalyzer.uaContribution ua p := by
  simp only [DeviceAnalyzer.uaContribution]
  repeat' split
  all_goals first
    | apply analyzeUserAgent_nonneg
    | norm_num

theorem checkProxyIndicators_nonneg (ua : String) :
    0 ≤ DeviceAnalyzer.checkProxyIndicators ua := by
  simp only [DeviceAnalyzer.checkProxyIndicators]
  repeat' split
  all_goals norm_num

theorem proxyContribution_nonneg (ua : Option String) :
    0 ≤ DeviceAnalyzer.proxyContribution ua := by
  simp only [DeviceAnalyzer.proxyContribution]
  repeat' split
  all_goals first
    | apply checkProxyIndicators_nonneg
    | norm_num

theorem checkDevicePattern_nonneg (fp : Option String) (kd : List String)
    (h : Option UserTransactionHistory) :
    0 ≤ DeviceAnalyzer.checkDevicePattern fp kd h := by
  simp only [DeviceAnalyzer.checkDevicePattern]
  repeat' split
  all_goals norm_num

theorem checkFingerprintQuality_nonneg (fp : String) :
    0 ≤ DeviceAnalyzer.checkFingerprintQuality fp := by
  simp only [DeviceAnalyzer.checkFingerprintQuality]
  repeat' split
  all_goals norm_num

theorem qualityContribution_nonneg (fp : Option String) :
    0 ≤ DeviceAnalyzer.qualityContribution fp := by
  simp only [DeviceAnalyzer.qualityContribution]
  repeat' split
  all_goals first
    | apply checkFingerprintQuality_nonneg
    | norm_num

theorem deviceRuleScore_nonneg (env : DeviceEnv) (fp ua : Option String)
    (kd : List String) (h : Option UserTransactionHistory) :
    0 ≤ DeviceAnalyzer.ruleScore env fp ua kd h := by
  have h1 := checkNewDevice_nonneg fp kd
  have h2 := trustContribution_nonneg (DeviceAnalyzer.deviceInfoOf env fp)
  have h3 := uaContribution_nonneg ua env.parsedUA
  have h4 := proxyContribution_nonneg ua
  have h5 := checkDevicePattern_nonneg fp kd h
  have h6 := qualityContribution_nonneg fp
  simp only [DeviceAnalyzer.ruleScore]
  linarith

theorem device_factor_invariant (env : DeviceEnv) (fp ua : Option String)
    (kd : List String) (h : Option UserTransactionHistory) :
    0 ≤ (DeviceAnalyzer.analyze env fp ua kd h).score ∧
    0 ≤ (DeviceAnalyzer.analyze env fp ua kd h).weight ∧
    ((DeviceAnalyzer.analyze env fp ua kd h).contributedScore =
        (DeviceAnalyzer.analyze env fp ua kd h).score *
          (DeviceAnalyzer.analyze env fp ua kd h).weight ∨
      ((DeviceAnalyzer.analyze env fp ua kd h).score = 1 ∧
       (DeviceAnalyzer.analyze env fp ua kd h).contributedScore = 1)) := by
  by_cases h1 : strFalsy fp = true ∧ strFalsy ua = true
  · have hfac : DeviceAnalyzer.analyze env fp ua kd h =
        { method := .DEVICE, score := 0.12, weight := config.deviceWeight
          contributedScore := 0.12 * config.deviceWeight
          reason := "No device information available" } := by
      simp only [DeviceAnalyzer.analyze, if_pos h1]
    rw [hfac]
    exact ⟨by norm_num, by norm_num [config.deviceWeight], Or.inl rfl⟩
  · by_cases h2 : (!(strFalsy fp)) = true ∧ DeviceAnalyzer.checkBlocklist env = true
    · have hfac : DeviceAnalyzer.analyze env fp ua kd h =
          { method := .DEVICE, score := 1.0, weight := config.deviceWeight
            contributedScore := 1.0
            reason := "Device is on fraud blocklist" } := by
        simp only [DeviceAnalyzer.analyze, if_neg h1, if_pos h2]
      rw [hfac]
      exact ⟨by norm_num, by norm_num [config.deviceWeight],
        Or.inr ⟨by norm_num, by norm_num⟩⟩
    · have hfac : DeviceAnalyzer.analyze env fp ua kd h =
          { method := .DEVICE
            score := min (DeviceAnalyzer.ruleScore env fp ua kd h) 0.40
            weight := config.deviceWeight
            contributedScore :=
              min (DeviceAnalyzer.ruleScore env fp ua kd h) 0.40 *
                config.deviceWeight
            reason := "device rules" } := by
        simp only [DeviceAnalyzer.analyze, if_neg h1, if_neg h2]
      rw [hfac]
      exact ⟨le_min_iff.mpr ⟨deviceRuleScore_nonneg env fp ua kd h, by norm_num⟩,
        by norm_num [config.deviceWeight], Or.inl rfl⟩

/-- C10 counterexample: the recipient analyzer's blocklist short-circuit
factor has rawScore 1.0 and weight 0.30, but contributedScore 1.0 rather
than the product 0.30 — the product invariant fails on blocklist
factors. -/
theorem C10_counterexample :
    (RecipientAnalyzer.analyze
        { cacheRecipientBlock := some { isActive := true, reason := "mule" }
          cacheAccountBlock := none, dbBlockReason := none
          cachedRecipientInfo := none, nowMs := 0 } "r-c10" none []).contributedScore
      = 1 ∧
    (RecipientAnalyzer.analyze
        { cacheRecipientBlock := some { isActive := true, reason := "mule" }
          cacheAccountBlock := none, dbBlockReason := none
          cachedRecipientInfo := none, nowMs := 0 } "r-c10" none []).score *
      (RecipientAnalyzer.analyze
        { cacheRecipientBlock := some { isActive := true, reason := "mule" }
          cacheAccountBlock := none, dbBlockReason := none
          cachedRecipientInfo := none, nowMs := 0 } "r-c10" none []).weight
      = 0.30 ∧
    (RecipientAnalyzer.analyze
        { cacheRecipientBlock := some { isActive := true, reason := "mule" }
          cacheAccountBlock := none, dbBlockReason := none
          cachedRecipientInfo := none, nowMs := 0 } "r-c10" none []).contributedScore
      ≠ (RecipientAnalyzer.analyze
          { cacheRecipientBlock := some { isActive := true, reason := "mule" }
            cacheAccountBlock := none, dbBlockReason := none
            cachedRecipientInfo := none, nowMs := 0 } "r-c10" none []).score *
        (RecipientAnalyzer.analyze
          { cacheRecipientBlock := some { isActive := true, reason := "mule" }
            cacheAccountBlock := none, dbBlockReason := none
            cachedRecipientInfo := none, nowMs := 0 } "r-c10" none []).weight := by
  have hhit : RecipientAnalyzer.checkBlocklist
      { cacheRecipientBlock := some { isActive := true, reason := "mule" }
        cacheAccountBlock := none, dbBlockReason := none
        cachedRecipientInfo := none, nowMs := 0 } = true := by decide
  have hfac : RecipientAnalyzer.analyze
      { cacheRecipientBlock := some { isActive := true, reason := "mule" }
        cacheAccountBlock := none, dbBlockReason := none
        cachedRecipientInfo := none, nowMs := 0 } "r-c10" none [] =
      { method := .RECIPIENT, score := 1.0, weight := config.recipientWeight
        contributedScore := 1.0
        reason := "Recipient is on fraud blocklist" } := by
    simp only [RecipientAnalyzer.analyze, if_pos hhit]
  rw [hfac]
  refine ⟨by norm_num, by norm_num [config.recipientWeight], ?_⟩
  norm_num [config.recipientWeight]

/-- C10 amended: every risk factor produced by the six rule-based
analyzers or the ML scorer has non-negative rawScore and weight, and its
contributedScore equals rawScore × weight — except the blocklist
short-circuit factors of the recipient and device analyzers, which carry
contributedScore 1.0 (a weight override: rawScore is 1.0 but the stored
weight stays the configured analyzer weight, so the product equality
fails exactly there). -/
theorem C10_risk_factor_invariants
    (a : ℚ) (h : Option UserTransactionHistory) (nowMs : ℤ)
    (s : SysState) (uid : String)
    (hr d m dt : ℕ) (ph pd : List ℕ)
    (loc : GeoLocation) (kc : List String)
    (e : Bool) (f : MLFeatures)
    (renv : RecipientEnv) (rid : String) (trusted : List String)
    (denv : DeviceEnv) (fp ua : Option String) (kd : List String) :
    factorInvariant (AmountAnalyzer.analyze a h nowMs) ∧
    factorInvariant (VelocityAnalyzer.analyze s uid a).1 ∧
    factorInvariant (TimeAnalyzer.analyze hr d m dt h ph pd nowMs) ∧
    factorInvariant (GeographicAnalyzer.analyze loc h kc nowMs) ∧
    factorInvariant (mlRiskFactor (MLModelService.predict e f)) ∧
    (0 ≤ (RecipientAnalyzer.analyze renv rid h trusted).score ∧
     0 ≤ (RecipientAnalyzer.analyze renv rid h trusted).weight ∧
     ((RecipientAnalyzer.analyze renv rid h trusted).contributedScore =
        (RecipientAnalyzer.analyze renv rid h trusted).score *
          (RecipientAnalyzer.analyze renv rid h trusted).weight ∨
      ((RecipientAnalyzer.analyze renv rid h trusted).score = 1 ∧
       (RecipientAnalyzer.analyze renv rid h trusted).contributedScore = 1))) ∧
    (0 ≤ (DeviceAnalyzer.analyze denv fp ua kd h).score ∧
     0 ≤ (DeviceAnalyzer.analyze denv fp ua kd h).weight ∧
     ((DeviceAnalyzer.analyze denv fp ua kd h).contributedScore =
        (DeviceAnalyzer.analyze denv fp ua kd h).score *
          (DeviceAnalyzer.analyze denv fp ua kd h).weight ∨
      ((DeviceAnalyzer.analyze denv fp ua kd h).score = 1 ∧
       (DeviceAnalyzer.analyze denv fp ua kd h).contributedScore = 1))) :=
  ⟨amount_factor_invariant a h nowMs,
   velocity_factor_invariant s uid a,
   time_factor_invariant hr d m dt h ph pd nowMs,
   geographic_factor_invariant loc h kc nowMs,
   ml_factor_invariant e f,
   recipient_factor_invariant renv rid h trusted,
   device_factor_invariant denv fp ua kd h⟩

theorem processTransaction_marker_present (env : PipelineEnv) (s : SysState)
    (tx : TransactionPayload) :
    (CacheService.getCachedAnalysis (processTransaction env s tx).1
      tx.transactionId).isSome = true := by
  cases h : CacheService.getCachedAnalysis s tx.transactionId with
  | some m => simp [processTransaction, h]
  | none =>
      simp only [processTransaction, h]
      simp only [CacheService.cacheAnalysis, CacheService.getCachedAnalysis]
      rw [List.find?_cons_of_pos _ (by simp)]
      simp

/-- C4: an event whose transactionId already has a cached analysis marker
returns success (the idempotency early return) with the system state
unchanged — nothing is published, no FraudAnalysis row is inserted, and
no velocity counter is incremented; consequently a second processing of
the same event (under any environment) is a no-op, so outbound messages
are emitted at most once within the marker's lifetime. -/
theorem C4_idempotent_processing (env env2 : PipelineEnv) (s : SysState)
    (tx : TransactionPayload) :
    ((CacheService.getCachedAnalysis s tx.transactionId).isSome = true →
      processTransaction env s tx = (s, .idempotentHit)) ∧
    processTransaction env2 (processTransaction env s tx).1 tx
      = ((processTransaction env s tx).1, .idempotentHit) := by
  have key : ∀ (e : PipelineEnv) (st : SysState),
      (CacheService.getCachedAnalysis st tx.transactionId).isSome = true →
      processTransaction e st tx = (st, .idempotentHit) := by
    intro e st hsome
    obtain ⟨m, hm⟩ := Option.isSome_iff_exists.mp hsome
    simp [processTransaction, hm]
  exact ⟨key env s, key env2 _ (processTransaction_marker_present env s tx)⟩

/-- Witness for C4: the sample event with a pre-existing marker leaves
the sample state untouched. -/
theorem C4_witness :
    processTransaction sampleEnv sampleMarkerState sampleTx
      = (sampleMarkerState, .idempotentHit) :=
  (C4_idempotent_processing sampleEnv sampleEnv sampleMarkerState sampleTx).1
    (by decide)

end FraudSpec

